import Mathlib

/-!
Verification of `src/datafusion/src/physical_plan/datetime_expressions.rs`.

The file embeds the datetime expression kernels of the query engine in Lean:
the proleptic-Gregorian calendar arithmetic used by the external `chrono`
collaborator, the `date_trunc_single` cascade, and the columnar dispatch
layer (`handle`, the `to_timestamp` family, `date_trunc`, `date_part`,
`make_now`).  Machine integers are modelled as `Int`; Rust's truncating
division `/` on `i64` is `Int.tdiv`, and a Rust panic (index out of bounds,
`unwrap` on `None`, an invalid `NaiveDateTime::from_timestamp` argument) is
modelled as the `none` value of an `Option` result.
-/

namespace DatetimeExpressions

/-! ### Civil (proleptic Gregorian) calendar

Model of the calendar decomposition used by the external `chrono` crate:
conversion between a day number (days since 1970-01-01) and a civil date.
The algorithm is the standard era-based one; `chrono`'s own representation
differs but computes the same mathematical calendar.  -/

/-- A civil (proleptic Gregorian) calendar date. -/
structure CivilDate where
  year : Int
  month : Int
  day : Int
deriving DecidableEq, Repr

/-- Days from the start of a 400-year era to the start of (March-based)
year `y` of the era: `365*y` plus one leap day per 4 years, minus one per
century. -/
def cumDays (y : Int) : Int := 365 * y + y / 4 - y / 100

/-- One past the last day-of-era belonging to (March-based) year `y` of the
era.  Year 399 additionally owns the era's final leap day `146096`. -/
def eraDayBound (y : Int) : Int := if y = 399 then 146097 else cumDays (y + 1)

/-- Value `x` minus the number of leap days among the first `x` days of an era;
dividing it by 365 recovers the year-of-era of day `x`. -/
def leapCount (x : Int) : Int := x - x / 1460 + x / 36524 - x / 146096

/-- Day offset (from March 1) of the start of shifted month `mp`
(`mp = 0` is March, `mp = 11` is February). -/
def marchStart (mp : Int) : Int := (153 * mp + 2) / 5

/-- The Gregorian leap-year predicate. -/
def isLeapYear (y : Int) : Bool := (y % 4 == 0 && y % 100 != 0) || y % 400 == 0

/-- Number of days in civil month `m` of year `y`. -/
def daysInMonth (y m : Int) : Int :=
  if m = 2 then (if isLeapYear y then 29 else 28)
  else if m = 4 ∨ m = 6 ∨ m = 9 ∨ m = 11 then 30
  else 31

/-- The 400-year era index of day number `z`. -/
def eraOf (z : Int) : Int := (z + 719468) / 146097

/-- Day-of-era of day number `z`. -/
def doeOf (z : Int) : Int := z + 719468 - 146097 * eraOf z

/-- Year-of-era of day number `z`. -/
def yoeOf (z : Int) : Int := leapCount (doeOf z) / 365

/-- Day-of-(March-based)-year of day number `z`. -/
def doyOf (z : Int) : Int := doeOf z - cumDays (yoeOf z)

/-- Shifted month index of day number `z` (0 = March … 11 = February). -/
def mpOf (z : Int) : Int := (5 * doyOf z + 2) / 153

/-- Civil date of day number `z` (days since 1970-01-01). -/
def civilFromDays (z : Int) : CivilDate :=
  let mp := mpOf z
  let m := if mp < 10 then mp + 3 else mp - 9
  { year := if m ≤ 2 then yoeOf z + eraOf z * 400 + 1 else yoeOf z + eraOf z * 400
    month := m
    day := doyOf z - marchStart mp + 1 }

/-- Day number (days since 1970-01-01) of the civil date `(y, m, d)`. -/
def daysFromCivil (y m d : Int) : Int :=
  let y' := if m ≤ 2 then y - 1 else y
  let era := y' / 400
  let yoe := y' - era * 400
  let doy := marchStart (if 2 < m then m - 3 else m + 9) + d - 1
  era * 146097 + cumDays yoe + doy - 719468

/-! #### Calendar correctness lemmas -/

set_option maxRecDepth 10000 in
/-- The two endpoint inequalities pinning `leapCount _ / 365` to the correct
year-of-era, checked for each of the 400 years of an era. -/
theorem leapCount_endpoints : ∀ y : Nat, y < 400 →
    365 * (y : Int) ≤ leapCount (cumDays y) ∧
    leapCount (eraDayBound y - 1) ≤ 365 * (y : Int) + 364 := by
  decide

theorem leapCount_step (x : Int) (h0 : 0 ≤ x) (h1 : x + 1 ≤ 146096) :
    leapCount x ≤ leapCount (x + 1) := by
  unfold leapCount
  omega

theorem leapCount_mono {x y : Int} (h0 : 0 ≤ x) (h : x ≤ y) (h1 : y ≤ 146096) :
    leapCount x ≤ leapCount y :=
  @Int.le_induction (fun z => z ≤ 146096 → leapCount x ≤ leapCount z) x
    (fun _ => le_refl _)
    (fun n _ ih hb =>
      le_trans (ih (by omega)) (leapCount_step n (by omega) (by omega)))
    y h h1

theorem cumDays_lt_succ (y : Int) : cumDays y < cumDays (y + 1) := by
  unfold cumDays
  omega

theorem cumDays_lt_eraDayBound (y : Int) (h0 : 0 ≤ y) (h1 : y ≤ 399) :
    cumDays y < eraDayBound y := by
  unfold eraDayBound cumDays
  split <;> omega

theorem eraDayBound_le (y : Int) (h0 : 0 ≤ y) (h1 : y ≤ 399) :
    eraDayBound y ≤ 146097 := by
  unfold eraDayBound cumDays
  split <;> omega

/-- Every day-of-era lies in the day range of exactly one year-of-era. -/
theorem bracket_exists (doe : Int) (h0 : 0 ≤ doe) (h1 : doe ≤ 146096) :
    ∃ y : Int, 0 ≤ y ∧ y ≤ 399 ∧ cumDays y ≤ doe ∧ doe < eraDayBound y := by
  refine @Int.le_induction
    (fun z => z ≤ 146096 →
      ∃ y : Int, 0 ≤ y ∧ y ≤ 399 ∧ cumDays y ≤ z ∧ z < eraDayBound y) 0
    ?_ ?_ doe h0 h1
  · intro _
    refine ⟨0, le_refl _, by omega, ?_, ?_⟩
    · unfold cumDays; omega
    · unfold eraDayBound cumDays; omega
  · intro n hn ih hup
    obtain ⟨y, hy0, hy1, hcl, hcu⟩ := ih (by omega)
    by_cases hlt : n + 1 < eraDayBound y
    · exact ⟨y, hy0, hy1, by omega, hlt⟩
    · have hne : n + 1 = eraDayBound y := by omega
      have hy399 : y ≠ 399 := by
        intro h
        have : eraDayBound y = 146097 := by unfold eraDayBound; simp [h]
        omega
      have hbd : eraDayBound y = cumDays (y + 1) := by
        unfold eraDayBound; simp [hy399]
      refine ⟨y + 1, by omega, by omega, by omega, ?_⟩
      by_cases h399 : y + 1 = 399
      · have : eraDayBound (y + 1) = 146097 := by unfold eraDayBound; simp [h399]
        omega
      · have hbd2 : eraDayBound (y + 1) = cumDays (y + 1 + 1) := by
          unfold eraDayBound; rw [if_neg h399]
        have hstep := cumDays_lt_succ (y + 1)
        omega

/-- The year-of-era formula is exact on each year's day range. -/
theorem yoe_eq (doe y : Int) (h0 : 0 ≤ y) (h1 : y ≤ 399)
    (h2 : cumDays y ≤ doe) (h3 : doe < eraDayBound y) :
    leapCount doe / 365 = y := by
  obtain ⟨e1, e2⟩ := leapCount_endpoints y.toNat (by omega)
  have hc : ((y.toNat : Nat) : Int) = y := Int.toNat_of_nonneg h0
  rw [hc] at e1 e2
  have hcum_nonneg : 0 ≤ cumDays y := by unfold cumDays; omega
  have hbd := eraDayBound_le y h0 h1
  have m1 : leapCount (cumDays y) ≤ leapCount doe :=
    leapCount_mono hcum_nonneg h2 (by omega)
  have m2 : leapCount doe ≤ leapCount (eraDayBound y - 1) :=
    leapCount_mono (by omega) (by omega) (by omega)
  omega

theorem eraDayBound_len (y : Int) (h0 : 0 ≤ y) (h1 : y ≤ 399) :
    eraDayBound y - cumDays y = 365 ∨ eraDayBound y - cumDays y = 366 := by
  unfold eraDayBound cumDays
  split <;> omega

/-- Year `y` of an era has 366 days exactly when the civil year containing
its February (`y + era*400 + 1`) is a leap year. -/
theorem leap_coupling (era y : Int) (h0 : 0 ≤ y) (h1 : y ≤ 399) :
    (eraDayBound y - cumDays y = 366) ↔ isLeapYear (y + era * 400 + 1) = true := by
  unfold eraDayBound cumDays isLeapYear
  simp only [Bool.or_eq_true, Bool.and_eq_true, beq_iff_eq, bne_iff_ne, ne_eq]
  split <;> omega

theorem isLeapYear_congr {a b : Int} (h : a = b) : isLeapYear a = isLeapYear b := by
  rw [h]

theorem daysInMonth_le (y m : Int) : daysInMonth y m ≤ 31 := by
  unfold daysInMonth
  split_ifs <;> omega

theorem daysInMonth_pos (y m : Int) : 1 ≤ daysInMonth y m := by
  unfold daysInMonth
  split_ifs <;> omega

/-- Month index, month start and day-in-month bounds for each shifted month
of a (March-based) year of length `L`. -/
theorem month_table (doy L : Int) (hL : L = 365 ∨ L = 366)
    (hd0 : 0 ≤ doy) (hd1 : doy < L) :
    0 ≤ (5 * doy + 2) / 153 ∧ (5 * doy + 2) / 153 ≤ 11 ∧
    marchStart ((5 * doy + 2) / 153) ≤ doy ∧
    doy - marchStart ((5 * doy + 2) / 153) + 1 ≤
      (if (5 * doy + 2) / 153 = 11 then L - 337
       else if (5 * doy + 2) / 153 = 1 ∨ (5 * doy + 2) / 153 = 3 ∨
              (5 * doy + 2) / 153 = 6 ∨ (5 * doy + 2) / 153 = 8 then 30 else 31) := by
  have h12 : (5 * doy + 2) / 153 = 0 ∨ (5 * doy + 2) / 153 = 1 ∨
      (5 * doy + 2) / 153 = 2 ∨ (5 * doy + 2) / 153 = 3 ∨
      (5 * doy + 2) / 153 = 4 ∨ (5 * doy + 2) / 153 = 5 ∨
      (5 * doy + 2) / 153 = 6 ∨ (5 * doy + 2) / 153 = 7 ∨
      (5 * doy + 2) / 153 = 8 ∨ (5 * doy + 2) / 153 = 9 ∨
      (5 * doy + 2) / 153 = 10 ∨ (5 * doy + 2) / 153 = 11 := by omega
  unfold marchStart
  rcases h12 with h | h | h | h | h | h | h | h | h | h | h | h <;>
    rw [h] <;> norm_num <;> omega

/-- The shifted month index is recovered from a day offset within the
month. -/
theorem mp_recover (mp e L : Int) (h0 : 0 ≤ mp) (h1 : mp ≤ 11) (he : 0 ≤ e)
    (hL : L = 365 ∨ L = 366)
    (hlen : e + 1 ≤ (if mp = 11 then L - 337
      else if mp = 1 ∨ mp = 3 ∨ mp = 6 ∨ mp = 8 then 30 else 31)) :
    (5 * (marchStart mp + e) + 2) / 153 = mp := by
  have h12 : mp = 0 ∨ mp = 1 ∨ mp = 2 ∨ mp = 3 ∨ mp = 4 ∨ mp = 5 ∨ mp = 6 ∨
      mp = 7 ∨ mp = 8 ∨ mp = 9 ∨ mp = 10 ∨ mp = 11 := by omega
  unfold marchStart
  rcases h12 with h | h | h | h | h | h | h | h | h | h | h | h <;> subst h <;>
    norm_num at hlen ⊢ <;> omega

theorem marchStart_nonneg (mp : Int) (h : 0 ≤ mp) : 0 ≤ marchStart mp := by
  unfold marchStart; omega

theorem marchStart_le (mp : Int) (h : mp ≤ 9) : marchStart mp ≤ 275 := by
  unfold marchStart; omega

theorem doeOf_range (z : Int) : 0 ≤ doeOf z ∧ doeOf z ≤ 146096 := by
  unfold doeOf eraOf
  omega

theorem yoeOf_bracket (z : Int) :
    0 ≤ yoeOf z ∧ yoeOf z ≤ 399 ∧ cumDays (yoeOf z) ≤ doeOf z ∧
    doeOf z < eraDayBound (yoeOf z) := by
  obtain ⟨h0, h1⟩ := doeOf_range z
  obtain ⟨y, hy0, hy1, hl, hu⟩ := bracket_exists (doeOf z) h0 h1
  have he : yoeOf z = y := yoe_eq (doeOf z) y hy0 hy1 hl hu
  rw [he]
  exact ⟨hy0, hy1, hl, hu⟩

/-- Recovery of the era / year / day-of-year / month decomposition from a
day number given in decomposed form. -/
theorem cfd_build (era yoe mp e z : Int)
    (hyoe0 : 0 ≤ yoe) (hyoe1 : yoe ≤ 399)
    (hmp0 : 0 ≤ mp) (hmp1 : mp ≤ 11) (he : 0 ≤ e)
    (hdoy : marchStart mp + e < eraDayBound yoe - cumDays yoe)
    (hz : z = era * 146097 + cumDays yoe + (marchStart mp + e) - 719468)
    (hmprec : (5 * (marchStart mp + e) + 2) / 153 = mp) :
    eraOf z = era ∧ yoeOf z = yoe ∧ doyOf z = marchStart mp + e ∧ mpOf z = mp := by
  have hbd := eraDayBound_le yoe hyoe0 hyoe1
  have hcnn : 0 ≤ cumDays yoe := by unfold cumDays; omega
  have hms0 := marchStart_nonneg mp hmp0
  have hera : eraOf z = era := by
    unfold eraOf; subst hz; omega
  have hdoe : doeOf z = cumDays yoe + (marchStart mp + e) := by
    unfold doeOf; rw [hera]; omega
  have hyoe : yoeOf z = yoe := by
    unfold yoeOf
    rw [hdoe]
    exact yoe_eq _ yoe hyoe0 hyoe1 (by omega) (by omega)
  have hdoyv : doyOf z = marchStart mp + e := by
    unfold doyOf; rw [hdoe, hyoe]; omega
  have hmp : mpOf z = mp := by
    unfold mpOf; rw [hdoyv]; exact hmprec
  exact ⟨hera, hyoe, hdoyv, hmp⟩

/-- Function `civilFromDays` produces a valid civil date and is a right inverse of
`daysFromCivil`. -/
theorem civil_spec (z : Int) :
    1 ≤ (civilFromDays z).month ∧ (civilFromDays z).month ≤ 12 ∧
    1 ≤ (civilFromDays z).day ∧
    (civilFromDays z).day ≤ daysInMonth (civilFromDays z).year (civilFromDays z).month ∧
    daysFromCivil (civilFromDays z).year (civilFromDays z).month (civilFromDays z).day = z := by
  obtain ⟨hy0, hy1, hcl, hcu⟩ := yoeOf_bracket z
  obtain ⟨hd0, hd1⟩ := doeOf_range z
  have hLv := eraDayBound_len (yoeOf z) hy0 hy1
  have hdoy0 : 0 ≤ doyOf z := by unfold doyOf; omega
  have hdoyL : doyOf z < eraDayBound (yoeOf z) - cumDays (yoeOf z) := by
    unfold doyOf; omega
  have hmpdef : mpOf z = (5 * doyOf z + 2) / 153 := rfl
  obtain ⟨hmp0, hmp1, hms, hdlen⟩ :=
    month_table (doyOf z) (eraDayBound (yoeOf z) - cumDays (yoeOf z)) hLv hdoy0 hdoyL
  rw [← hmpdef] at hmp0 hmp1 hms hdlen
  have hdoe_def : doeOf z = z + 719468 - 146097 * eraOf z := rfl
  have hdoy_def : doyOf z = doeOf z - cumDays (yoeOf z) := rfl
  have h12 : mpOf z = 0 ∨ mpOf z = 1 ∨ mpOf z = 2 ∨ mpOf z = 3 ∨ mpOf z = 4 ∨
      mpOf z = 5 ∨ mpOf z = 6 ∨ mpOf z = 7 ∨ mpOf z = 8 ∨ mpOf z = 9 ∨
      mpOf z = 10 ∨ mpOf z = 11 := by omega
  have hval : z = eraOf z * 146097 + cumDays (yoeOf z) + doyOf z - 719468 := by
    omega
  rcases h12 with h | h | h | h | h | h | h | h | h | h | h | h <;>
      rw [h] at hms hdlen <;> norm_num at hdlen <;>
      simp only [civilFromDays, h] <;> norm_num [daysInMonth] <;>
      try (refine ⟨hms, hdlen, ?_⟩
           simp only [daysFromCivil]
           norm_num
           have hg : (yoeOf z + eraOf z * 400) / 400 = eraOf z := by omega
           rw [hg, add_sub_cancel_right]
           omega)
  -- remaining goal: February (mp = 11)
  have hcp := leap_coupling (eraOf z) (yoeOf z) hy0 hy1
  refine ⟨hms, ?_, ?_⟩
  · by_cases hleap : isLeapYear (yoeOf z + eraOf z * 400 + 1) = true
    · rw [if_pos hleap]
      have h366 := hcp.mpr hleap
      omega
    · rw [if_neg hleap]
      have h365 : eraDayBound (yoeOf z) - cumDays (yoeOf z) = 365 := by
        rcases hLv with h365 | h366
        · exact h365
        · exact absurd (hcp.mp h366) hleap
      omega
  · simp only [daysFromCivil]
    norm_num
    have hg : (yoeOf z + eraOf z * 400) / 400 = eraOf z := by omega
    rw [hg, add_sub_cancel_right]
    omega

/-- Function `daysFromCivil` followed by `civilFromDays` is the identity on valid
civil dates. -/
theorem civil_roundtrip2 (y m d : Int) (hm1 : 1 ≤ m) (hm2 : m ≤ 12) (hd1 : 1 ≤ d)
    (hd2 : d ≤ daysInMonth y m) :
    civilFromDays (daysFromCivil y m d) = ⟨y, m, d⟩ := by
  rcases show 3 ≤ m ∨ m = 1 ∨ m = 2 by omega with hm | hm | hm
  · -- March through December
    have hLv := eraDayBound_len (y - 400 * (y / 400)) (by omega) (by omega)
    have hdim := daysInMonth_le y m
    have h4 : d ≤ if m = 4 ∨ m = 6 ∨ m = 9 ∨ m = 11 then 30 else 31 := by
      unfold daysInMonth at hd2
      rw [if_neg (show ¬(m = 2) by omega)] at hd2
      exact hd2
    have hmsle := marchStart_le (m - 3) (by omega)
    have hms0 := marchStart_nonneg (m - 3) (by omega)
    have hlen : (d - 1) + 1 ≤ (if m - 3 = 11 then 365 - 337
        else if m - 3 = 1 ∨ m - 3 = 3 ∨ m - 3 = 6 ∨ m - 3 = 8 then 30 else 31) := by
      split_ifs at h4 ⊢ <;> omega
    have hz : daysFromCivil y m d = (y / 400) * 146097 +
        cumDays (y - 400 * (y / 400)) + (marchStart (m - 3) + (d - 1)) - 719468 := by
      simp only [daysFromCivil]
      rw [if_neg (show ¬(m ≤ 2) by omega), if_pos (show 2 < m by omega)]
      unfold cumDays
      omega
    obtain ⟨hera, hyoe, hdoyv, hmp⟩ :=
      cfd_build (y / 400) (y - 400 * (y / 400)) (m - 3) (d - 1)
        (daysFromCivil y m d) (by omega) (by omega) (by omega) (by omega)
        (by omega) (by omega) hz
        (mp_recover (m - 3) (d - 1) 365 (by omega) (by omega) (by omega)
          (Or.inl rfl) hlen)
    simp only [civilFromDays, hmp, hera, hyoe, hdoyv]
    rw [if_pos (show m - 3 < 10 by omega), if_neg (show ¬(m - 3 + 3 ≤ 2) by omega)]
    simp only [CivilDate.mk.injEq]
    refine ⟨by omega, by omega, by omega⟩
  · -- January
    subst hm
    have hLv := eraDayBound_len (y - 1 - 400 * ((y - 1) / 400)) (by omega) (by omega)
    norm_num [daysInMonth] at hd2
    have hms10 : marchStart 10 = 306 := by unfold marchStart; norm_num
    have hz : daysFromCivil y 1 d = ((y - 1) / 400) * 146097 +
        cumDays (y - 1 - 400 * ((y - 1) / 400)) + (marchStart 10 + (d - 1)) - 719468 := by
      simp only [daysFromCivil]
      norm_num
      unfold cumDays
      omega
    obtain ⟨hera, hyoe, hdoyv, hmp⟩ :=
      cfd_build ((y - 1) / 400) (y - 1 - 400 * ((y - 1) / 400)) 10 (d - 1)
        (daysFromCivil y 1 d) (by omega) (by omega) (by omega) (by omega)
        (by omega) (by omega) hz
        (mp_recover 10 (d - 1) 365 (by omega) (by omega) (by omega)
          (Or.inl rfl) (by norm_num; omega))
    simp only [civilFromDays, hmp, hera, hyoe, hdoyv]
    norm_num
    omega
  · -- February
    subst hm
    have hy0 : (0:Int) ≤ y - 1 - 400 * ((y - 1) / 400) := by omega
    have hy1 : y - 1 - 400 * ((y - 1) / 400) ≤ 399 := by omega
    have hLv := eraDayBound_len (y - 1 - 400 * ((y - 1) / 400)) hy0 hy1
    have hcp := leap_coupling ((y - 1) / 400) (y - 1 - 400 * ((y - 1) / 400)) hy0 hy1
    have harg : y - 1 - 400 * ((y - 1) / 400) + (y - 1) / 400 * 400 + 1 = y := by omega
    rw [harg] at hcp
    have hms11 : marchStart 11 = 337 := by unfold marchStart; norm_num
    unfold daysInMonth at hd2
    rw [if_pos rfl] at hd2
    have hz : daysFromCivil y 2 d = ((y - 1) / 400) * 146097 +
        cumDays (y - 1 - 400 * ((y - 1) / 400)) + (marchStart 11 + (d - 1)) - 719468 := by
      simp only [daysFromCivil]
      norm_num
      unfold cumDays
      omega
    by_cases hleap : isLeapYear y = true
    · rw [if_pos hleap] at hd2
      have h366 := hcp.mpr hleap
      obtain ⟨hera, hyoe, hdoyv, hmp⟩ :=
        cfd_build ((y - 1) / 400) (y - 1 - 400 * ((y - 1) / 400)) 11 (d - 1)
          (daysFromCivil y 2 d) hy0 hy1 (by omega) (by omega)
          (by omega) (by omega) hz
          (mp_recover 11 (d - 1) 366 (by omega) (by omega) (by omega)
            (Or.inr rfl) (by norm_num; omega))
      simp only [civilFromDays, hmp, hera, hyoe, hdoyv]
      norm_num
      omega
    · rw [if_neg hleap] at hd2
      have h365 : eraDayBound (y - 1 - 400 * ((y - 1) / 400)) -
          cumDays (y - 1 - 400 * ((y - 1) / 400)) = 365 := by
        rcases hLv with h | h
        · exact h
        · exact absurd (hcp.mp h) hleap
      obtain ⟨hera, hyoe, hdoyv, hmp⟩ :=
        cfd_build ((y - 1) / 400) (y - 1 - 400 * ((y - 1) / 400)) 11 (d - 1)
          (daysFromCivil y 2 d) hy0 hy1 (by omega) (by omega)
          (by omega) (by omega) hz
          (mp_recover 11 (d - 1) 365 (by omega) (by omega) (by omega)
            (Or.inl rfl) (by norm_num; omega))
      simp only [civilFromDays, hmp, hera, hyoe, hdoyv]
      norm_num
      omega

theorem dfc_day_shift (y m d e : Int) :
    daysFromCivil y m (d + e) = daysFromCivil y m d + e := by
  simp only [daysFromCivil]
  split_ifs <;> ring

/-- Moving forward inside a month shifts only the day component. -/
theorem civil_shift_within_month (z e : Int) (he : 0 ≤ e)
    (hd : (civilFromDays z).day + e ≤
      daysInMonth (civilFromDays z).year (civilFromDays z).month) :
    civilFromDays (z + e) =
      ⟨(civilFromDays z).year, (civilFromDays z).month, (civilFromDays z).day + e⟩ := by
  obtain ⟨hm1, hm2, hd1, hd2, hrt⟩ := civil_spec z
  have hz : z + e = daysFromCivil (civilFromDays z).year (civilFromDays z).month
      ((civilFromDays z).day + e) := by
    rw [dfc_day_shift, hrt]
  rw [hz]
  exact civil_roundtrip2 _ _ _ hm1 hm2 (by omega) hd

theorem dfc_jan1_le (y m d : Int) (hm1 : 1 ≤ m) (hm2 : m ≤ 12) (hd1 : 1 ≤ d) :
    daysFromCivil y 1 1 ≤ daysFromCivil y m d := by
  rcases show 3 ≤ m ∨ m = 1 ∨ m = 2 by omega with hm | hm | hm
  · simp only [daysFromCivil]
    rw [if_neg (show ¬(m ≤ 2) by omega), if_pos (show 2 < m by omega)]
    norm_num
    have hms := marchStart_le (m - 3) (by omega)
    have hms0 := marchStart_nonneg (m - 3) (by omega)
    try simp only [marchStart, cumDays]
    omega
  · subst hm
    simp only [daysFromCivil]
    norm_num
    try simp only [marchStart, cumDays]
    omega
  · subst hm
    simp only [daysFromCivil]
    norm_num
    try simp only [marchStart, cumDays]
    omega

theorem dfc_lt_next_jan1 (y m d : Int) (hm1 : 1 ≤ m) (hm2 : m ≤ 12) (hd1 : 1 ≤ d)
    (hd2 : d ≤ daysInMonth y m) :
    daysFromCivil y m d < daysFromCivil (y + 1) 1 1 := by
  have hdim := daysInMonth_le y m
  rcases show 3 ≤ m ∨ m = 1 ∨ m = 2 by omega with hm | hm | hm
  · simp only [daysFromCivil]
    rw [if_neg (show ¬(m ≤ 2) by omega), if_pos (show 2 < m by omega)]
    norm_num
    have hms := marchStart_le (m - 3) (by omega)
    have hms0 := marchStart_nonneg (m - 3) (by omega)
    try simp only [marchStart, cumDays]
    omega
  · subst hm
    simp only [daysFromCivil]
    norm_num
    try simp only [marchStart, cumDays]
    omega
  · subst hm
    simp only [daysFromCivil]
    norm_num
    try simp only [marchStart, cumDays]
    omega

theorem jan1_mono (y1 y2 : Int) (h : y1 ≤ y2) :
    daysFromCivil y1 1 1 ≤ daysFromCivil y2 1 1 := by
  simp only [daysFromCivil]
  norm_num
  try simp only [marchStart, cumDays]
  omega

theorem year_mono {z1 z2 : Int} (h : z1 ≤ z2) :
    (civilFromDays z1).year ≤ (civilFromDays z2).year := by
  obtain ⟨hm1a, hm2a, hd1a, hd2a, hrta⟩ := civil_spec z1
  obtain ⟨hm1b, hm2b, hd1b, hd2b, hrtb⟩ := civil_spec z2
  by_contra hlt
  push_neg at hlt
  have h1 : z2 < daysFromCivil ((civilFromDays z2).year + 1) 1 1 := by
    conv_lhs => rw [← hrtb]
    exact dfc_lt_next_jan1 _ _ _ hm1b hm2b hd1b hd2b
  have h2 : daysFromCivil ((civilFromDays z2).year + 1) 1 1 ≤
      daysFromCivil (civilFromDays z1).year 1 1 := jan1_mono _ _ (by omega)
  have h3 : daysFromCivil (civilFromDays z1).year 1 1 ≤ z1 := by
    conv_rhs => rw [← hrta]
    exact dfc_jan1_le _ _ _ hm1a hm2a hd1a
  omega

/-- The first day of a day's month is not after the day itself. -/
theorem dfc_month1_le_self (z : Int) :
    daysFromCivil (civilFromDays z).year (civilFromDays z).month 1 ≤ z := by
  obtain ⟨hm1, hm2, hd1, hd2, hrt⟩ := civil_spec z
  have h := dfc_day_shift (civilFromDays z).year (civilFromDays z).month 1
      ((civilFromDays z).day - 1)
  rw [show (1 : Int) + ((civilFromDays z).day - 1) = (civilFromDays z).day from by ring,
    hrt] at h
  omega

/-- Monotonicity of truncation to the first of the month. -/
theorem monthTrunc_mono {z1 z2 : Int} (h : z1 ≤ z2) :
    daysFromCivil (civilFromDays z1).year (civilFromDays z1).month 1 ≤
    daysFromCivil (civilFromDays z2).year (civilFromDays z2).month 1 := by
  obtain ⟨hm1b, hm2b, hd1b, hd2b, hrtb⟩ := civil_spec z2
  have hsh2 := dfc_day_shift (civilFromDays z2).year (civilFromDays z2).month 1
      ((civilFromDays z2).day - 1)
  rw [show (1 : Int) + ((civilFromDays z2).day - 1) = (civilFromDays z2).day from by ring,
    hrtb] at hsh2
  by_cases hc : z1 < daysFromCivil (civilFromDays z2).year (civilFromDays z2).month 1
  · have hle := dfc_month1_le_self z1
    omega
  · push_neg at hc
    have hcfd2 : civilFromDays (daysFromCivil (civilFromDays z2).year
        (civilFromDays z2).month 1) =
        ⟨(civilFromDays z2).year, (civilFromDays z2).month, 1⟩ :=
      civil_roundtrip2 _ _ _ hm1b hm2b (by omega) (by omega)
    have hshift := civil_shift_within_month
      (daysFromCivil (civilFromDays z2).year (civilFromDays z2).month 1)
      (z1 - daysFromCivil (civilFromDays z2).year (civilFromDays z2).month 1)
      (by omega) (by simp only [hcfd2]; omega)
    simp only [hcfd2] at hshift
    rw [show daysFromCivil (civilFromDays z2).year (civilFromDays z2).month 1 +
      (z1 - daysFromCivil (civilFromDays z2).year (civilFromDays z2).month 1) = z1
      from by ring] at hshift
    simp only [hshift]
    exact le_refl _

/-- Monotonicity of truncation to January 1. -/
theorem yearTrunc_mono {z1 z2 : Int} (h : z1 ≤ z2) :
    daysFromCivil (civilFromDays z1).year 1 1 ≤
    daysFromCivil (civilFromDays z2).year 1 1 :=
  jan1_mono _ _ (year_mono h)

/-! ### `chrono` NaiveDateTime model

The source manipulates timestamps through `chrono`'s `NaiveDateTime`
(an external collaborator).  A datetime is modelled as a day number plus
broken-down time-of-day fields; field setters return `none` exactly when
`chrono` would, and panics are `none` at the caller. -/

structure NaiveDateTime where
  days : Int
  hour : Int
  minute : Int
  second : Int
  nano : Int
deriving DecidableEq, Repr

/-- Build the datetime of an epoch-second count (civil decomposition with
floor semantics) carrying a nanosecond field. -/
def mkDateTimeOfSecs (secs nano : Int) : NaiveDateTime :=
  { days := secs / 86400
    hour := secs % 86400 / 3600
    minute := secs % 86400 % 3600 / 60
    second := secs % 86400 % 60
    nano := nano }

/-- Model of `arrow2::temporal_conversions::timestamp_ns_to_datetime`: Rust computes
`NaiveDateTime::from_timestamp(v / 1_000_000_000, (v % 1_000_000_000) as u32)`
with truncating `/` and `%`; the `u32` cast wraps modulo `2^32`, and
`from_timestamp` panics (modelled `none`) when the nanosecond argument is
`2_000_000_000` or larger. -/
def timestamp_ns_to_datetime (v : Int) : Option NaiveDateTime :=
  let secs := Int.tdiv v 1000000000
  let nsecs := (Int.tmod v 1000000000) % 4294967296
  if nsecs < 2000000000 then some (mkDateTimeOfSecs secs nsecs) else none

def NaiveDateTime.with_nanosecond (dt : NaiveDateTime) (n : Int) :
    Option NaiveDateTime :=
  if 0 ≤ n ∧ n < 2000000000 then some { dt with nano := n } else none

def NaiveDateTime.with_second (dt : NaiveDateTime) (s : Int) :
    Option NaiveDateTime :=
  if 0 ≤ s ∧ s < 60 then some { dt with second := s } else none

def NaiveDateTime.with_minute (dt : NaiveDateTime) (m : Int) :
    Option NaiveDateTime :=
  if 0 ≤ m ∧ m < 60 then some { dt with minute := m } else none

def NaiveDateTime.with_hour (dt : NaiveDateTime) (h : Int) :
    Option NaiveDateTime :=
  if 0 ≤ h ∧ h < 24 then some { dt with hour := h } else none

/-- Model of `chrono`'s `Weekday as i64`: Monday = 0 … Sunday = 6.  Day 0
(1970-01-01) is a Thursday, index 3. -/
def NaiveDateTime.weekdayNumber (dt : NaiveDateTime) : Int := (dt.days + 3) % 7

/-- Model of `Datelike::with_day0`: sets the zero-based day-of-month, `none` when the
resulting date would be invalid. -/
def NaiveDateTime.with_day0 (dt : NaiveDateTime) (d0 : Int) :
    Option NaiveDateTime :=
  let c := civilFromDays dt.days
  if 0 ≤ d0 ∧ d0 + 1 ≤ daysInMonth c.year c.month then
    some { dt with days := daysFromCivil c.year c.month (d0 + 1) }
  else none

/-- Model of `Datelike::with_month0`: sets the zero-based month, `none` when the
resulting date would be invalid. -/
def NaiveDateTime.with_month0 (dt : NaiveDateTime) (m0 : Int) :
    Option NaiveDateTime :=
  let c := civilFromDays dt.days
  if 0 ≤ m0 ∧ m0 < 12 ∧ c.day ≤ daysInMonth c.year (m0 + 1) then
    some { dt with days := daysFromCivil c.year (m0 + 1) c.day }
  else none

def NaiveDateTime.totalSeconds (dt : NaiveDateTime) : Int :=
  dt.days * 86400 + dt.hour * 3600 + dt.minute * 60 + dt.second

/-- Model of `NaiveDateTime::timestamp_nanos`. -/
def NaiveDateTime.timestamp_nanos (dt : NaiveDateTime) : Int :=
  dt.totalSeconds * 1000000000 + dt.nano

/-- Subtraction of a `Duration` of whole seconds. -/
def NaiveDateTime.subSeconds (dt : NaiveDateTime) (s : Int) : NaiveDateTime :=
  mkDateTimeOfSecs (dt.totalSeconds - s) dt.nano

/-! ### Errors and `date_trunc_single` -/

/-- The failure type of the engine (`crate::error::DataFusionError`),
modelled from the spec with the variants this module produces. -/
inductive DataFusionError where
  | Internal (msg : String)
  | Execution (msg : String)
  | ArrowError (msg : String)
deriving DecidableEq, Repr

/-- Model of `Ok(value.unwrap().timestamp_nanos())`: the `unwrap` panics (`none`)
when a setter failed. -/
def unwrapTimestampNanos (o : Option NaiveDateTime) :
    Option (Except DataFusionError Int) :=
  match o with
  | some d => some (Except.ok d.timestamp_nanos)
  | none => none

/-- Function `date_trunc_single` from the source: convert to a datetime (panicking
on an invalid sub-second), zero the nanoseconds, then cascade per
granularity; unknown granularities return an execution error before the
final `unwrap`. -/
def date_trunc_single (granularity : String) (value : Int) :
    Option (Except DataFusionError Int) :=
  match timestamp_ns_to_datetime value with
  | none => none
  | some dt =>
    let v0 := dt.with_nanosecond 0
    match granularity with
    | "second" => unwrapTimestampNanos v0
    | "minute" => unwrapTimestampNanos (v0.bind fun d => d.with_second 0)
    | "hour" => unwrapTimestampNanos
        ((v0.bind fun d => d.with_second 0).bind fun d => d.with_minute 0)
    | "day" => unwrapTimestampNanos
        (((v0.bind fun d => d.with_second 0).bind fun d => d.with_minute 0).bind
          fun d => d.with_hour 0)
    | "week" => unwrapTimestampNanos
        ((((v0.bind fun d => d.with_second 0).bind fun d => d.with_minute 0).bind
          fun d => d.with_hour 0).map
          fun d => d.subSeconds (60 * 60 * 24 * d.weekdayNumber))
    | "month" => unwrapTimestampNanos
        ((((v0.bind fun d => d.with_second 0).bind fun d => d.with_minute 0).bind
          fun d => d.with_hour 0).bind fun d => d.with_day0 0)
    | "year" => unwrapTimestampNanos
        (((((v0.bind fun d => d.with_second 0).bind fun d => d.with_minute 0).bind
          fun d => d.with_hour 0).bind fun d => d.with_day0 0).bind
          fun d => d.with_month0 0)
    | unsupported =>
        some (Except.error (DataFusionError.Execution
          ("Unsupported date_trunc granularity: " ++ unsupported)))

/-- Timestamps on which `timestamp_ns_to_datetime` does not panic: the
`u32` cast of the Rust remainder stays below `2_000_000_000` exactly for
non-negative values and exact multiples of one second. -/
def validTs (t : Int) : Prop := 0 ≤ t ∨ t % 1000000000 = 0

instance (t : Int) : Decidable (validTs t) := by unfold validTs; infer_instance

theorem neg_tmod_eq (a b : Int) : Int.tmod (-a) b = -(Int.tmod a b) := by
  rw [Int.tmod_def, Int.tmod_def, Int.neg_tdiv]
  ring

/-- Characterization of the Rust (truncating) division of a timestamp by
`1_000_000_000`. -/
theorem tmod_char (t : Int) :
    t = 1000000000 * Int.tdiv t 1000000000 + Int.tmod t 1000000000 ∧
    -1000000000 < Int.tmod t 1000000000 ∧
    Int.tmod t 1000000000 < 1000000000 ∧
    (0 ≤ t → 0 ≤ Int.tmod t 1000000000) ∧
    (t < 0 → Int.tmod t 1000000000 ≤ 0) := by
  refine ⟨?_, ?_, Int.tmod_lt_of_pos t (by norm_num),
    fun h => Int.tmod_nonneg _ h, fun h => ?_⟩
  · have := Int.tmod_add_tdiv t 1000000000
    omega
  · rcases le_or_lt 0 t with h | h
    · have := Int.tmod_nonneg 1000000000 h
      omega
    · have h1 : Int.tmod (-t) 1000000000 < 1000000000 :=
        Int.tmod_lt_of_pos (-t) (by norm_num)
      have h2 := neg_tmod_eq t 1000000000
      omega
  · have h1 : 0 ≤ Int.tmod (-t) 1000000000 := Int.tmod_nonneg _ (by omega)
    have h2 := neg_tmod_eq t 1000000000
    omega

/-- On valid timestamps the conversion succeeds with the floor
decomposition. -/
theorem tns_of_valid (t : Int) (h : validTs t) :
    timestamp_ns_to_datetime t =
      some (mkDateTimeOfSecs (t / 1000000000) (t % 1000000000)) := by
  obtain ⟨he, hm1, hm2, hpos, hneg⟩ := tmod_char t
  unfold validTs at h
  have hvt : 0 ≤ Int.tmod t 1000000000 := by omega
  have hdiv : Int.tdiv t 1000000000 = t / 1000000000 := by omega
  have hmod : Int.tmod t 1000000000 = t % 1000000000 := by omega
  simp only [timestamp_ns_to_datetime]
  rw [hdiv, hmod, show (t % 1000000000) % 4294967296 = t % 1000000000 from by omega]
  rw [if_pos (by omega)]

/-- A successful conversion forces a valid timestamp and the floor
decomposition. -/
theorem tns_char (t : Int) (dt : NaiveDateTime)
    (h : timestamp_ns_to_datetime t = some dt) :
    validTs t ∧ dt = mkDateTimeOfSecs (t / 1000000000) (t % 1000000000) := by
  obtain ⟨he, hm1, hm2, hpos, hneg⟩ := tmod_char t
  simp only [timestamp_ns_to_datetime] at h
  by_cases hc : (Int.tmod t 1000000000) % 4294967296 < 2000000000
  · rw [if_pos hc] at h
    have ht0 : 0 ≤ Int.tmod t 1000000000 := by omega
    have hdiv : Int.tdiv t 1000000000 = t / 1000000000 := by omega
    have hmod : Int.tmod t 1000000000 = t % 1000000000 := by omega
    have hwrap : (Int.tmod t 1000000000) % 4294967296 = Int.tmod t 1000000000 := by
      omega
    refine ⟨by unfold validTs; omega, ?_⟩
    have := Option.some.inj h
    rw [← this, hdiv, hwrap, hmod]
  · rw [if_neg hc] at h
    exact absurd h (by simp)

/-- A panicking conversion means an invalid timestamp. -/
theorem tns_none (t : Int) (h : ¬ validTs t) : timestamp_ns_to_datetime t = none := by
  obtain ⟨he, hm1, hm2, hpos, hneg⟩ := tmod_char t
  unfold validTs at h
  simp only [timestamp_ns_to_datetime]
  rw [if_neg (by omega)]

theorem dts_second (t : Int) (h : validTs t) :
    date_trunc_single "second" t =
      some (Except.ok (1000000000 * (t / 1000000000))) := by
  simp only [date_trunc_single, tns_of_valid t h, mkDateTimeOfSecs,
    NaiveDateTime.with_nanosecond, unwrapTimestampNanos,
    NaiveDateTime.timestamp_nanos, NaiveDateTime.totalSeconds]
  norm_num
  omega

theorem dts_minute (t : Int) (h : validTs t) :
    date_trunc_single "minute" t =
      some (Except.ok (1000000000 * (t / 1000000000 - t / 1000000000 % 60))) := by
  simp only [date_trunc_single, tns_of_valid t h, mkDateTimeOfSecs,
    NaiveDateTime.with_nanosecond, NaiveDateTime.with_second, Option.bind,
    unwrapTimestampNanos, NaiveDateTime.timestamp_nanos,
    NaiveDateTime.totalSeconds]
  norm_num
  omega

theorem dts_hour (t : Int) (h : validTs t) :
    date_trunc_single "hour" t =
      some (Except.ok (1000000000 * (t / 1000000000 - t / 1000000000 % 3600))) := by
  simp only [date_trunc_single, tns_of_valid t h, mkDateTimeOfSecs,
    NaiveDateTime.with_nanosecond, NaiveDateTime.with_second,
    NaiveDateTime.with_minute, Option.bind, unwrapTimestampNanos,
    NaiveDateTime.timestamp_nanos, NaiveDateTime.totalSeconds]
  norm_num
  omega

theorem dts_day (t : Int) (h : validTs t) :
    date_trunc_single "day" t =
      some (Except.ok (1000000000 * (t / 1000000000 - t / 1000000000 % 86400))) := by
  simp only [date_trunc_single, tns_of_valid t h, mkDateTimeOfSecs,
    NaiveDateTime.with_nanosecond, NaiveDateTime.with_second,
    NaiveDateTime.with_minute, NaiveDateTime.with_hour, Option.bind,
    unwrapTimestampNanos, NaiveDateTime.timestamp_nanos,
    NaiveDateTime.totalSeconds]
  norm_num
  omega

theorem dts_week (t : Int) (h : validTs t) :
    date_trunc_single "week" t =
      some (Except.ok (86400000000000 *
        (t / 1000000000 / 86400 - (t / 1000000000 / 86400 + 3) % 7))) := by
  simp only [date_trunc_single, tns_of_valid t h, mkDateTimeOfSecs,
    NaiveDateTime.with_nanosecond, NaiveDateTime.with_second,
    NaiveDateTime.with_minute, NaiveDateTime.with_hour, Option.bind, Option.map,
    NaiveDateTime.subSeconds, NaiveDateTime.weekdayNumber,
    NaiveDateTime.totalSeconds, unwrapTimestampNanos,
    NaiveDateTime.timestamp_nanos]
  norm_num
  omega

theorem dts_month (t : Int) (h : validTs t) :
    date_trunc_single "month" t =
      some (Except.ok (86400000000000 *
        daysFromCivil (civilFromDays (t / 1000000000 / 86400)).year
          (civilFromDays (t / 1000000000 / 86400)).month 1)) := by
  obtain ⟨hm1, hm2, hd1, hd2, hrt⟩ := civil_spec (t / 1000000000 / 86400)
  simp only [date_trunc_single, tns_of_valid t h, mkDateTimeOfSecs,
    NaiveDateTime.with_nanosecond, NaiveDateTime.with_second,
    NaiveDateTime.with_minute, NaiveDateTime.with_hour,
    NaiveDateTime.with_day0, Option.bind, unwrapTimestampNanos,
    NaiveDateTime.timestamp_nanos, NaiveDateTime.totalSeconds]
  norm_num
  rw [if_pos (show (1:Int) ≤ daysInMonth (civilFromDays (t / 1000000000 / 86400)).year
      (civilFromDays (t / 1000000000 / 86400)).month from by omega)]
  norm_num
  ring

theorem dts_year (t : Int) (h : validTs t) :
    date_trunc_single "year" t =
      some (Except.ok (86400000000000 *
        daysFromCivil (civilFromDays (t / 1000000000 / 86400)).year 1 1)) := by
  obtain ⟨hm1, hm2, hd1, hd2, hrt⟩ := civil_spec (t / 1000000000 / 86400)
  have hrt2 := civil_roundtrip2 (civilFromDays (t / 1000000000 / 86400)).year
    (civilFromDays (t / 1000000000 / 86400)).month 1 hm1 hm2 (le_refl 1) (by omega)
  simp only [date_trunc_single, tns_of_valid t h, mkDateTimeOfSecs,
    NaiveDateTime.with_nanosecond, NaiveDateTime.with_second,
    NaiveDateTime.with_minute, NaiveDateTime.with_hour,
    NaiveDateTime.with_day0, NaiveDateTime.with_month0, Option.bind,
    unwrapTimestampNanos, NaiveDateTime.timestamp_nanos,
    NaiveDateTime.totalSeconds]
  norm_num
  rw [if_pos (show (1:Int) ≤ daysInMonth (civilFromDays (t / 1000000000 / 86400)).year
      (civilFromDays (t / 1000000000 / 86400)).month from by omega)]
  simp only [hrt2]
  norm_num [daysInMonth]
  ring

/-- A result at all (even an error) forces a valid timestamp. -/
theorem dts_some_valid (g : String) (t : Int) (r : Except DataFusionError Int)
    (h : date_trunc_single g t = some r) : validTs t := by
  by_contra hv
  simp only [date_trunc_single, tns_none t hv] at h
  exact Option.noConfusion h

theorem some_ok_inj {a b : Int}
    (h : (some (Except.ok a) : Option (Except DataFusionError Int)) =
      some (Except.ok b)) : a = b := by
  injection h with h1
  injection h1

instance {α : Type} [DecidableEq α] : DecidableEq (Except DataFusionError α) := fun x y =>
  match x, y with
  | Except.error e, Except.error f =>
      if h : e = f then isTrue (by rw [h])
      else isFalse (by intro hh; injection hh; exact h (by assumption))
  | Except.ok a, Except.ok b =>
      if h : a = b then isTrue (by rw [h])
      else isFalse (by intro hh; injection hh; exact h (by assumption))
  | Except.error _, Except.ok _ => isFalse (fun hh => Except.noConfusion hh)
  | Except.ok _, Except.error _ => isFalse (fun hh => Except.noConfusion hh)

/-- Claim C4: for every granularity in {second, minute, hour, day, week,
month, year} and every nanosecond timestamp, `date_trunc` is idempotent:
truncating an already-truncated value returns it unchanged. -/
theorem c4_date_trunc_idempotent (g : String)
    (hg : g ∈ ["second", "minute", "hour", "day", "week", "month", "year"])
    (t u : Int) (h : date_trunc_single g t = some (Except.ok u)) :
    date_trunc_single g u = some (Except.ok u) := by
  have hv := dts_some_valid g t _ h
  simp only [List.mem_cons, List.not_mem_nil, or_false] at hg
  rcases hg with rfl | rfl | rfl | rfl | rfl | rfl | rfl
  · rw [dts_second t hv] at h
    have hu := some_ok_inj h
    have hvu : validTs u := Or.inr (by omega)
    rw [dts_second u hvu]
    rw [show 1000000000 * (u / 1000000000) = u from by omega]
  · rw [dts_minute t hv] at h
    have hu := some_ok_inj h
    have hvu : validTs u := Or.inr (by omega)
    rw [dts_minute u hvu]
    rw [show 1000000000 * (u / 1000000000 - u / 1000000000 % 60) = u from by omega]
  · rw [dts_hour t hv] at h
    have hu := some_ok_inj h
    have hvu : validTs u := Or.inr (by omega)
    rw [dts_hour u hvu]
    rw [show 1000000000 * (u / 1000000000 - u / 1000000000 % 3600) = u from by omega]
  · rw [dts_day t hv] at h
    have hu := some_ok_inj h
    have hvu : validTs u := Or.inr (by omega)
    rw [dts_day u hvu]
    rw [show 1000000000 * (u / 1000000000 - u / 1000000000 % 86400) = u from by omega]
  · rw [dts_week t hv] at h
    have hu := some_ok_inj h
    have hvu : validTs u := Or.inr (by omega)
    rw [dts_week u hvu]
    rw [show 86400000000000 * (u / 1000000000 / 86400 -
      (u / 1000000000 / 86400 + 3) % 7) = u from by omega]
  · obtain ⟨hm1, hm2, hd1, hd2, hrt⟩ := civil_spec (t / 1000000000 / 86400)
    rw [dts_month t hv] at h
    have hu := some_ok_inj h
    have hM := civil_roundtrip2 (civilFromDays (t / 1000000000 / 86400)).year
      (civilFromDays (t / 1000000000 / 86400)).month 1 hm1 hm2 (le_refl 1) (by omega)
    have hvu : validTs u := Or.inr (by omega)
    rw [dts_month u hvu]
    have hday : u / 1000000000 / 86400 =
        daysFromCivil (civilFromDays (t / 1000000000 / 86400)).year
          (civilFromDays (t / 1000000000 / 86400)).month 1 := by omega
    simp only [hday, hM]
    rw [hu]
  · obtain ⟨hm1, hm2, hd1, hd2, hrt⟩ := civil_spec (t / 1000000000 / 86400)
    rw [dts_year t hv] at h
    have hu := some_ok_inj h
    have hY := civil_roundtrip2 (civilFromDays (t / 1000000000 / 86400)).year 1 1
      (le_refl 1) (by norm_num) (le_refl 1) (by norm_num [daysInMonth])
    have hvu : validTs u := Or.inr (by omega)
    rw [dts_year u hvu]
    have hday : u / 1000000000 / 86400 =
        daysFromCivil (civilFromDays (t / 1000000000 / 86400)).year 1 1 := by omega
    simp only [hday, hY]
    rw [hu]

/-- Witness for C4 at a concrete input. -/
theorem c4_date_trunc_idempotent_witness :
    date_trunc_single "second" 1599572549000000000 =
      some (Except.ok 1599572549000000000) :=
  c4_date_trunc_idempotent "second" (by simp) 1599572549190855000
    1599572549000000000 (by decide)

/-- Claim C5: for every supported granularity, `date_trunc` is monotone in
the timestamp. -/
theorem c5_date_trunc_monotone (g : String)
    (hg : g ∈ ["second", "minute", "hour", "day", "week", "month", "year"])
    (t1 t2 r1 r2 : Int) (h12 : t1 ≤ t2)
    (h1 : date_trunc_single g t1 = some (Except.ok r1))
    (h2 : date_trunc_single g t2 = some (Except.ok r2)) : r1 ≤ r2 := by
  have hv1 := dts_some_valid g t1 _ h1
  have hv2 := dts_some_valid g t2 _ h2
  simp only [List.mem_cons, List.not_mem_nil, or_false] at hg
  rcases hg with rfl | rfl | rfl | rfl | rfl | rfl | rfl
  · rw [dts_second t1 hv1] at h1
    rw [dts_second t2 hv2] at h2
    have e1 := some_ok_inj h1
    have e2 := some_ok_inj h2
    omega
  · rw [dts_minute t1 hv1] at h1
    rw [dts_minute t2 hv2] at h2
    have e1 := some_ok_inj h1
    have e2 := some_ok_inj h2
    omega
  · rw [dts_hour t1 hv1] at h1
    rw [dts_hour t2 hv2] at h2
    have e1 := some_ok_inj h1
    have e2 := some_ok_inj h2
    omega
  · rw [dts_day t1 hv1] at h1
    rw [dts_day t2 hv2] at h2
    have e1 := some_ok_inj h1
    have e2 := some_ok_inj h2
    omega
  · rw [dts_week t1 hv1] at h1
    rw [dts_week t2 hv2] at h2
    have e1 := some_ok_inj h1
    have e2 := some_ok_inj h2
    omega
  · rw [dts_month t1 hv1] at h1
    rw [dts_month t2 hv2] at h2
    have e1 := some_ok_inj h1
    have e2 := some_ok_inj h2
    have hd : t1 / 1000000000 / 86400 ≤ t2 / 1000000000 / 86400 := by omega
    have hmono := monthTrunc_mono hd
    omega
  · rw [dts_year t1 hv1] at h1
    rw [dts_year t2 hv2] at h2
    have e1 := some_ok_inj h1
    have e2 := some_ok_inj h2
    have hd : t1 / 1000000000 / 86400 ≤ t2 / 1000000000 / 86400 := by omega
    have hmono := yearTrunc_mono hd
    omega

/-- Witness for C5 at concrete inputs. -/
theorem c5_date_trunc_monotone_witness :
    (1598918400000000000 : Int) ≤ 1601510400000000000 :=
  c5_date_trunc_monotone "month" (by simp) 1599572549190855000 1601510400000000000
    1598918400000000000 1601510400000000000 (by norm_num) (by decide) (by decide)

/-! ### Value model: `DataType`, `ScalarValue`, arrays, `ColumnarValue`

The scalar/array duality and the typed-scalar union live in repository
modules outside this file's source (`crate::scalar`, arrow2); they are
modelled from the spec's data model section. -/

inductive TimeUnit where
  | Second
  | Millisecond
  | Microsecond
  | Nanosecond
deriving DecidableEq, Repr

/-- Modelled from the spec: the arrow `DataType`s this module touches. -/
inductive DataType where
  | Utf8
  | LargeUtf8
  | Int32
  | Int64
  | Timestamp (unit : TimeUnit) (tz : Option String)
deriving DecidableEq, Repr

def TimeUnit.debugFmt : TimeUnit → String
  | TimeUnit.Second => "Second"
  | TimeUnit.Millisecond => "Millisecond"
  | TimeUnit.Microsecond => "Microsecond"
  | TimeUnit.Nanosecond => "Nanosecond"

def formatOptString : Option String → String
  | none => "None"
  | some s => "Some(\"" ++ s ++ "\")"

def formatOptInt : Option Int → String
  | none => "None"
  | some i => "Some(" ++ toString i ++ ")"

/-- Modelled from the spec: Rust `Debug` rendering of a `DataType`, as it
appears inside `"Unsupported data type {:?} for function {}"`. -/
def DataType.debugFmt : DataType → String
  | DataType.Utf8 => "Utf8"
  | DataType.LargeUtf8 => "LargeUtf8"
  | DataType.Int32 => "Int32"
  | DataType.Int64 => "Int64"
  | DataType.Timestamp u tz =>
      "Timestamp(" ++ u.debugFmt ++ ", " ++ formatOptString tz ++ ")"

/-- Modelled from the spec: the tagged scalar union (`crate::scalar` is
outside `src/`): nullable text in two encodings, 64-bit timestamps of the
four units with an optional timezone, and the integer scalars this module
produces or rejects. -/
inductive ScalarValue where
  | Utf8 (v : Option String)
  | LargeUtf8 (v : Option String)
  | Int32 (v : Option Int)
  | Int64 (v : Option Int)
  | TimestampSecond (v : Option Int) (tz : Option String)
  | TimestampMillisecond (v : Option Int) (tz : Option String)
  | TimestampMicrosecond (v : Option Int) (tz : Option String)
  | TimestampNanosecond (v : Option Int) (tz : Option String)
deriving DecidableEq, Repr

/-- Modelled from the spec: Rust `Debug` rendering of a `ScalarValue`. -/
def ScalarValue.debugFmt : ScalarValue → String
  | ScalarValue.Utf8 v => "Utf8(" ++ formatOptString v ++ ")"
  | ScalarValue.LargeUtf8 v => "LargeUtf8(" ++ formatOptString v ++ ")"
  | ScalarValue.Int32 v => "Int32(" ++ formatOptInt v ++ ")"
  | ScalarValue.Int64 v => "Int64(" ++ formatOptInt v ++ ")"
  | ScalarValue.TimestampSecond v tz =>
      "TimestampSecond(" ++ formatOptInt v ++ ", " ++ formatOptString tz ++ ")"
  | ScalarValue.TimestampMillisecond v tz =>
      "TimestampMillisecond(" ++ formatOptInt v ++ ", " ++ formatOptString tz ++ ")"
  | ScalarValue.TimestampMicrosecond v tz =>
      "TimestampMicrosecond(" ++ formatOptInt v ++ ", " ++ formatOptString tz ++ ")"
  | ScalarValue.TimestampNanosecond v tz =>
      "TimestampNanosecond(" ++ formatOptInt v ++ ", " ++ formatOptString tz ++ ")"

/-- A variable-width text array: offset width (`large`) plus nullable
elements. -/
structure Utf8ArrayData where
  large : Bool
  values : List (Option String)
deriving DecidableEq, Repr

/-- A 64-bit primitive array (the concrete representation of `Int64Array`
and of every 64-bit timestamp array) with its logical type. -/
structure PrimI64Data where
  dtype : DataType
  values : List (Option Int)
deriving DecidableEq, Repr

/-- A 32-bit primitive array (`Int32Array`, produced by `date_part`). -/
structure PrimI32Data where
  dtype : DataType
  values : List (Option Int)
deriving DecidableEq, Repr

/-- An arrow array reference: the concrete representations this module
consumes or produces.  A `downcast_ref` to a concrete array type succeeds
exactly when the constructor (and, for text, the offset width) matches. -/
inductive ArrayRef where
  | utf8 (a : Utf8ArrayData)
  | primI64 (a : PrimI64Data)
  | primI32 (a : PrimI32Data)
deriving DecidableEq, Repr

def ArrayRef.dataType : ArrayRef → DataType
  | ArrayRef.utf8 a => if a.large then DataType.LargeUtf8 else DataType.Utf8
  | ArrayRef.primI64 a => a.dtype
  | ArrayRef.primI32 a => a.dtype

/-- The scalar/array duality. -/
inductive ColumnarValue where
  | Array (a : ArrayRef)
  | Scalar (s : ScalarValue)
deriving DecidableEq, Repr

/-! ### Element dispatcher and type router -/

/-- The elementwise traversal inside
`unary_string_to_primitive_function`: `op` on each non-null element,
left to right, aborting on the first failure; nulls pass through. -/
def mapStringOp (op : String → Except DataFusionError Int) :
    List (Option String) → Except DataFusionError (List (Option Int))
  | [] => Except.ok []
  | none :: rest =>
      match mapStringOp op rest with
      | Except.error e => Except.error e
      | Except.ok r => Except.ok (none :: r)
  | some s :: rest =>
      match op s with
      | Except.error e => Except.error e
      | Except.ok v =>
        match mapStringOp op rest with
        | Except.error e => Except.error e
        | Except.ok r => Except.ok (some v :: r)

/-- Function `unary_string_to_primitive_function` from the source: checks the
argument count, downcasts `args[0]` to a text array of offset width
`wide`, then maps `op` over it. -/
def unary_string_to_primitive_function (args : List ArrayRef)
    (op : String → Except DataFusionError Int) (name : String) (wide : Bool) :
    Except DataFusionError (List (Option Int)) :=
  if args.length ≠ 1 then
    Except.error (DataFusionError.Internal
      (toString args.length ++ " args were supplied but " ++ name ++
        " takes exactly one argument"))
  else
    match args with
    | [ArrayRef.utf8 a] =>
        if a.large = wide then mapStringOp op a.values
        else Except.error (DataFusionError.Internal "failed to downcast to string")
    | _ => Except.error (DataFusionError.Internal "failed to downcast to string")

/-- Modelled from the spec: `ScalarValue::new_null` (`crate::scalar` is
outside `src/`), the null scalar of a given logical type. -/
def newNullScalar : DataType → ScalarValue
  | DataType.Utf8 => ScalarValue.Utf8 none
  | DataType.LargeUtf8 => ScalarValue.LargeUtf8 none
  | DataType.Int32 => ScalarValue.Int32 none
  | DataType.Int64 => ScalarValue.Int64 none
  | DataType.Timestamp TimeUnit.Second tz => ScalarValue.TimestampSecond none tz
  | DataType.Timestamp TimeUnit.Millisecond tz =>
      ScalarValue.TimestampMillisecond none tz
  | DataType.Timestamp TimeUnit.Microsecond tz =>
      ScalarValue.TimestampMicrosecond none tz
  | DataType.Timestamp TimeUnit.Nanosecond tz =>
      ScalarValue.TimestampNanosecond none tz

/-- Modelled from the spec: `PrimitiveScalar::<i64>::new(dt, v).try_into()`,
stamping the requested semantic type onto a 64-bit value. -/
def primitiveScalarTryInto (dt : DataType) (v : Option Int) :
    Except DataFusionError ScalarValue :=
  match dt with
  | DataType.Int32 => Except.ok (ScalarValue.Int32 v)
  | DataType.Int64 => Except.ok (ScalarValue.Int64 v)
  | DataType.Timestamp TimeUnit.Second tz =>
      Except.ok (ScalarValue.TimestampSecond v tz)
  | DataType.Timestamp TimeUnit.Millisecond tz =>
      Except.ok (ScalarValue.TimestampMillisecond v tz)
  | DataType.Timestamp TimeUnit.Microsecond tz =>
      Except.ok (ScalarValue.TimestampMicrosecond v tz)
  | DataType.Timestamp TimeUnit.Nanosecond tz =>
      Except.ok (ScalarValue.TimestampNanosecond v tz)
  | other => Except.error (DataFusionError.Internal
      ("Unsupported data type " ++ other.debugFmt))

/-- Function `handle` from the source: route a one-argument text operation over the
scalar/array duality, producing a value of the requested `data_type`.
`args[0]` on an empty slice panics (`none`). -/
def handle (args : List ColumnarValue) (op : String → Except DataFusionError Int)
    (name : String) (data_type : DataType) :
    Option (Except DataFusionError ColumnarValue) :=
  match args with
  | [] => none
  | arg :: _ =>
    match arg with
    | ColumnarValue.Array a =>
      match a.dataType with
      | DataType.Utf8 =>
          some (match unary_string_to_primitive_function [a] op name false with
            | Except.ok vals =>
                Except.ok (ColumnarValue.Array (ArrayRef.primI64 ⟨data_type, vals⟩))
            | Except.error e => Except.error e)
      | DataType.LargeUtf8 =>
          some (match unary_string_to_primitive_function [a] op name true with
            | Except.ok vals =>
                Except.ok (ColumnarValue.Array (ArrayRef.primI64 ⟨data_type, vals⟩))
            | Except.error e => Except.error e)
      | other =>
          some (Except.error (DataFusionError.Internal
            ("Unsupported data type " ++ other.debugFmt ++ " for function " ++ name)))
    | ColumnarValue.Scalar scalar =>
      match scalar with
      | ScalarValue.Utf8 a | ScalarValue.LargeUtf8 a =>
        (match a with
         | some s =>
            some (match op s with
              | Except.error e => Except.error e
              | Except.ok v =>
                match primitiveScalarTryInto data_type (some v) with
                | Except.error e => Except.error e
                | Except.ok sv => Except.ok (ColumnarValue.Scalar sv))
         | none => some (Except.ok (ColumnarValue.Scalar (newNullScalar data_type))))
      | other =>
          some (Except.error (DataFusionError.Internal
            ("Unsupported data type " ++ other.debugFmt ++ " for function " ++ name)))

/-! ### The `to_timestamp` family and `make_now`

`string_to_timestamp_nanos` (text to epoch nanoseconds) is an external
collaborator; each function is parameterized by it as `parse`. -/

/-- Function `to_timestamp`: nanoseconds, no downsampling. -/
def to_timestamp (parse : String → Except DataFusionError Int)
    (args : List ColumnarValue) : Option (Except DataFusionError ColumnarValue) :=
  handle args parse "to_timestamp" (DataType.Timestamp TimeUnit.Nanosecond none)

/-- Function `to_timestamp_millis`: truncating division by 1,000,000. -/
def to_timestamp_millis (parse : String → Except DataFusionError Int)
    (args : List ColumnarValue) : Option (Except DataFusionError ColumnarValue) :=
  handle args (fun s => (parse s).map fun n => Int.tdiv n 1000000)
    "to_timestamp_millis" (DataType.Timestamp TimeUnit.Millisecond none)

/-- Function `to_timestamp_micros`: truncating division by 1,000. -/
def to_timestamp_micros (parse : String → Except DataFusionError Int)
    (args : List ColumnarValue) : Option (Except DataFusionError ColumnarValue) :=
  handle args (fun s => (parse s).map fun n => Int.tdiv n 1000)
    "to_timestamp_micros" (DataType.Timestamp TimeUnit.Microsecond none)

/-- Function `to_timestamp_seconds`: truncating division by 1,000,000,000. -/
def to_timestamp_seconds (parse : String → Except DataFusionError Int)
    (args : List ColumnarValue) : Option (Except DataFusionError ColumnarValue) :=
  handle args (fun s => (parse s).map fun n => Int.tdiv n 1000000000)
    "to_timestamp_seconds" (DataType.Timestamp TimeUnit.Second none)

/-- Function `make_now`: binds one fixed instant (its `timestamp_nanos()` value)
into a closure that ignores its arguments. -/
def make_now (now_ts : Int) :
    List ColumnarValue → Except DataFusionError ColumnarValue :=
  fun _ => Except.ok (ColumnarValue.Scalar
    (ScalarValue.TimestampNanosecond (some now_ts) (some "UTC")))

/-! ### `date_trunc` and `date_part` -/

/-- The elementwise traversal of `date_trunc`'s array arm:
`x.map(|x| date_trunc_single(granularity, *x)).transpose()` collected left
to right, with panic (`none`) propagation. -/
def dtsMapArray (granularity : String) :
    List (Option Int) → Option (Except DataFusionError (List (Option Int)))
  | [] => some (Except.ok [])
  | none :: rest =>
      match dtsMapArray granularity rest with
      | none => none
      | some (Except.error e) => some (Except.error e)
      | some (Except.ok r) => some (Except.ok (none :: r))
  | some x :: rest =>
      match date_trunc_single granularity x with
      | none => none
      | some (Except.error e) => some (Except.error e)
      | some (Except.ok v) =>
        match dtsMapArray granularity rest with
        | none => none
        | some (Except.error e) => some (Except.error e)
        | some (Except.ok r) => some (Except.ok (some v :: r))

/-- Function `date_trunc` from the source.  The granularity must be a non-null
`Utf8` scalar; a null timestamp scalar maps to a null output; the array
arm downcasts to `Int64Array` with `.unwrap()` (panic — `none` — on any
other concrete array type); other scalars hit the trailing shape error. -/
def date_trunc (args : List ColumnarValue) :
    Option (Except DataFusionError ColumnarValue) :=
  match args with
  | g :: arr :: _ =>
    (match g with
     | ColumnarValue.Scalar (ScalarValue.Utf8 (some granularity)) =>
       (match arr with
        | ColumnarValue.Scalar (ScalarValue.TimestampNanosecond v tz) =>
          (match v with
           | none => some (Except.ok (ColumnarValue.Scalar
               (ScalarValue.TimestampNanosecond none tz)))
           | some x =>
             match date_trunc_single granularity x with
             | none => none
             | some (Except.error e) => some (Except.error e)
             | some (Except.ok r) => some (Except.ok (ColumnarValue.Scalar
                 (ScalarValue.TimestampNanosecond (some r) tz))))
        | ColumnarValue.Array a =>
          (match a with
           | ArrayRef.primI64 p =>
             (match dtsMapArray granularity p.values with
              | none => none
              | some (Except.error e) => some (Except.error e)
              | some (Except.ok out) => some (Except.ok (ColumnarValue.Array
                  (ArrayRef.primI64
                    ⟨DataType.Timestamp TimeUnit.Nanosecond none, out⟩))))
           | _ => none)
        | _ => some (Except.error (DataFusionError.Execution
            "array of `date_trunc` must be non-null scalar Utf8")))
     | _ => some (Except.error (DataFusionError.Execution
         "Granularity of `date_trunc` must be non-null scalar Utf8")))
  | _ => none

/-- Modelled from the spec: `ScalarValue::to_array` materializes a scalar
as a one-element array of its logical type. -/
def scalarToArray : ScalarValue → ArrayRef
  | ScalarValue.Utf8 v => ArrayRef.utf8 ⟨false, [v]⟩
  | ScalarValue.LargeUtf8 v => ArrayRef.utf8 ⟨true, [v]⟩
  | ScalarValue.Int32 v => ArrayRef.primI32 ⟨DataType.Int32, [v]⟩
  | ScalarValue.Int64 v => ArrayRef.primI64 ⟨DataType.Int64, [v]⟩
  | ScalarValue.TimestampSecond v tz =>
      ArrayRef.primI64 ⟨DataType.Timestamp TimeUnit.Second tz, [v]⟩
  | ScalarValue.TimestampMillisecond v tz =>
      ArrayRef.primI64 ⟨DataType.Timestamp TimeUnit.Millisecond tz, [v]⟩
  | ScalarValue.TimestampMicrosecond v tz =>
      ArrayRef.primI64 ⟨DataType.Timestamp TimeUnit.Microsecond tz, [v]⟩
  | ScalarValue.TimestampNanosecond v tz =>
      ArrayRef.primI64 ⟨DataType.Timestamp TimeUnit.Nanosecond tz, [v]⟩

def TimeUnit.toSecondsDiv : TimeUnit → Int
  | TimeUnit.Second => 1
  | TimeUnit.Millisecond => 1000
  | TimeUnit.Microsecond => 1000000
  | TimeUnit.Nanosecond => 1000000000

/-- Modelled from the spec: the external `temporal::hour` kernel, an
elementwise hour extraction over a timestamp array, nulls preserved. -/
def temporalHour (a : ArrayRef) : Except DataFusionError (List (Option Int)) :=
  match a with
  | ArrayRef.primI64 p =>
    (match p.dtype with
     | DataType.Timestamp u _ =>
         Except.ok (p.values.map (Option.map fun v =>
           v / u.toSecondsDiv % 86400 / 3600))
     | other => Except.error (DataFusionError.ArrowError
         ("hour does not support type " ++ other.debugFmt)))
  | other => Except.error (DataFusionError.ArrowError
      ("hour does not support type " ++ other.dataType.debugFmt))

/-- Modelled from the spec: the external `temporal::year` kernel, an
elementwise calendar-year extraction over a timestamp array. -/
def temporalYear (a : ArrayRef) : Except DataFusionError (List (Option Int)) :=
  match a with
  | ArrayRef.primI64 p =>
    (match p.dtype with
     | DataType.Timestamp u _ =>
         Except.ok (p.values.map (Option.map fun v =>
           (civilFromDays (v / u.toSecondsDiv / 86400)).year))
     | other => Except.error (DataFusionError.ArrowError
         ("year does not support type " ++ other.debugFmt)))
  | other => Except.error (DataFusionError.ArrowError
      ("year does not support type " ++ other.dataType.debugFmt))

/-- Modelled from the spec: Rust's `str::to_lowercase` (an external
standard-library collaborator), as a structural character-wise lowering so
that it evaluates by kernel reduction. -/
def rustToLowercase (s : String) : String :=
  String.mk (s.data.map Char.toLower)

/-- Modelled from the spec: `ScalarValue::try_from_array(&arr, 0)`. -/
def tryFromArrayAt0 (a : ArrayRef) : Except DataFusionError ScalarValue :=
  match a with
  | ArrayRef.primI32 p =>
      (match p.values with
       | v :: _ => Except.ok (ScalarValue.Int32 v)
       | [] => Except.error (DataFusionError.Internal "index out of bounds"))
  | ArrayRef.primI64 p =>
      (match p.values with
       | v :: _ => Except.ok (ScalarValue.Int64 v)
       | [] => Except.error (DataFusionError.Internal "index out of bounds"))
  | ArrayRef.utf8 u =>
      (match u.values with
       | v :: _ => Except.ok (if u.large then ScalarValue.LargeUtf8 v
           else ScalarValue.Utf8 v)
       | [] => Except.error (DataFusionError.Internal "index out of bounds"))

/-- Function `date_part` from the source: arity check, non-null `Utf8` scalar field
name, scalar-to-array materialization, case-insensitive dispatch to the
`hour`/`year` extraction kernels (hour widened `u32 → i32`), and
re-wrapping of the single result when the input was a scalar. -/
def date_part (args : List ColumnarValue) :
    Option (Except DataFusionError ColumnarValue) :=
  if args.length ≠ 2 then
    some (Except.error (DataFusionError.Execution
      "Expected two arguments in DATE_PART"))
  else
    match args with
    | [dp, arr] =>
      (match dp with
       | ColumnarValue.Scalar (ScalarValue.Utf8 (some name)) =>
         let is_scalar : Bool := match arr with
           | ColumnarValue.Scalar _ => true
           | _ => false
         let array : ArrayRef := match arr with
           | ColumnarValue.Array a => a
           | ColumnarValue.Scalar s => scalarToArray s
         (match rustToLowercase name with
          | "hour" =>
            (match temporalHour array with
             | Except.error e => some (Except.error e)
             | Except.ok vals =>
               if is_scalar then
                 some (match tryFromArrayAt0
                     (ArrayRef.primI32 ⟨DataType.Int32, vals⟩) with
                   | Except.error e => Except.error e
                   | Except.ok sv => Except.ok (ColumnarValue.Scalar sv))
               else
                 some (Except.ok (ColumnarValue.Array
                   (ArrayRef.primI32 ⟨DataType.Int32, vals⟩))))
          | "year" =>
            (match temporalYear array with
             | Except.error e => some (Except.error e)
             | Except.ok vals =>
               if is_scalar then
                 some (match tryFromArrayAt0
                     (ArrayRef.primI32 ⟨DataType.Int32, vals⟩) with
                   | Except.error e => Except.error e
                   | Except.ok sv => Except.ok (ColumnarValue.Scalar sv))
               else
                 some (Except.ok (ColumnarValue.Array
                   (ArrayRef.primI32 ⟨DataType.Int32, vals⟩))))
          | _ => some (Except.error (DataFusionError.Execution
              ("Date part '" ++ name ++ "' not supported"))))
       | _ => some (Except.error (DataFusionError.Execution
           "First argument of `DATE_PART` must be non-null scalar Utf8")))
    | _ => none

/-! ### Supporting lemmas about the dispatch layer -/

theorem unwrapTimestampNanos_ne_error (o : Option NaiveDateTime)
    (e : DataFusionError) : unwrapTimestampNanos o ≠ some (Except.error e) := by
  cases o <;> simp [unwrapTimestampNanos]

/-- The only error `date_trunc_single` can produce is the
unsupported-granularity execution error naming the granularity. -/
theorem dts_error_msg (g : String) (v : Int) (e : DataFusionError)
    (h : date_trunc_single g v = some (Except.error e)) :
    e = DataFusionError.Execution ("Unsupported date_trunc granularity: " ++ g) := by
  cases htns : timestamp_ns_to_datetime v with
  | none =>
    simp only [date_trunc_single, htns] at h
    exact Option.noConfusion h
  | some dt =>
    simp only [date_trunc_single, htns] at h
    split at h <;>
      first
        | exact absurd h (unwrapTimestampNanos_ne_error _ _)
        | (injection h with h1
           injection h1 with h2
           exact h2.symm)

/-- An unsupported granularity yields exactly the execution error, for
every timestamp on which the conversion does not panic. -/
theorem dts_unsupported (g : String)
    (hg : g ∉ ["second", "minute", "hour", "day", "week", "month", "year"])
    (v : Int) (h : validTs v) :
    date_trunc_single g v = some (Except.error (DataFusionError.Execution
      ("Unsupported date_trunc granularity: " ++ g))) := by
  simp only [List.mem_cons, List.not_mem_nil, or_false, not_or] at hg
  obtain ⟨h1, h2, h3, h4, h5, h6, h7⟩ := hg
  simp only [date_trunc_single, tns_of_valid v h]

theorem dtsMapArray_error_msg (g : String) (vals : List (Option Int))
    (e : DataFusionError)
    (h : dtsMapArray g vals = some (Except.error e)) :
    e = DataFusionError.Execution ("Unsupported date_trunc granularity: " ++ g) := by
  induction vals with
  | nil => simp [dtsMapArray] at h
  | cons x rest ih =>
    cases x with
    | none =>
      simp only [dtsMapArray] at h
      cases hr : dtsMapArray g rest with
      | none => rw [hr] at h; exact Option.noConfusion h
      | some r =>
        rw [hr] at h
        cases r with
        | error e2 =>
          injection h with h1
          injection h1 with h2
          exact h2 ▸ ih (hr.trans (by rw [h2]))
        | ok r2 => exact Except.noConfusion (Option.some.inj h)
    | some xv =>
      simp only [dtsMapArray] at h
      cases hx : date_trunc_single g xv with
      | none => rw [hx] at h; exact Option.noConfusion h
      | some rx =>
        rw [hx] at h
        cases rx with
        | error e2 =>
          injection h with h1
          injection h1 with h2
          exact h2 ▸ dts_error_msg g xv e2 hx
        | ok v2 =>
          cases hr : dtsMapArray g rest with
          | none => rw [hr] at h; exact Option.noConfusion h
          | some r =>
            rw [hr] at h
            cases r with
            | error e2 =>
              injection h with h1
              injection h1 with h2
              exact h2 ▸ ih (hr.trans (by rw [h2]))
            | ok r2 => exact Except.noConfusion (Option.some.inj h)

/-- A successful array truncation preserves null positions. -/
theorem dtsMapArray_ok_nulls (g : String) (vals out : List (Option Int))
    (h : dtsMapArray g vals = some (Except.ok out)) :
    ∀ i, vals.get? i = some none → out.get? i = some none := by
  induction vals generalizing out with
  | nil =>
    simp only [dtsMapArray] at h
    intro i hi
    simp at hi
  | cons x rest ih =>
    cases x with
    | none =>
      simp only [dtsMapArray] at h
      cases hr : dtsMapArray g rest with
      | none => rw [hr] at h; exact Option.noConfusion h
      | some r =>
        rw [hr] at h
        cases r with
        | error e2 => exact Except.noConfusion (Option.some.inj h)
        | ok r2 =>
          have hout : out = none :: r2 := by
            injection h with h1
            injection h1 with h2
            exact h2.symm
          subst hout
          intro i hi
          cases i with
          | zero => rfl
          | succ j => exact ih r2 hr j hi
    | some xv =>
      simp only [dtsMapArray] at h
      cases hx : date_trunc_single g xv with
      | none => rw [hx] at h; exact Option.noConfusion h
      | some rx =>
        rw [hx] at h
        cases rx with
        | error e2 => simp at h
        | ok v2 =>
          cases hr : dtsMapArray g rest with
          | none => rw [hr] at h; exact Option.noConfusion h
          | some r =>
            rw [hr] at h
            cases r with
            | error e2 => exact Except.noConfusion (Option.some.inj h)
            | ok r2 =>
              have hout : out = some v2 :: r2 := by
                injection h with h1
                injection h1 with h2
                exact h2.symm
              subst hout
              intro i hi
              cases i with
              | zero => exact absurd (Option.some.inj hi) (by simp)
              | succ j => exact ih r2 hr j hi

/-- An all-null array passes through unchanged, never invoking the
truncation. -/
theorem dtsMapArray_all_null (g : String) (vals : List (Option Int))
    (h : ∀ x ∈ vals, x = none) :
    dtsMapArray g vals = some (Except.ok vals) := by
  induction vals with
  | nil => rfl
  | cons x rest ih =>
    have hx : x = none := h x (by simp)
    subst hx
    simp only [dtsMapArray, ih (fun y hy => h y (by simp [hy]))]

/-- With an unsupported granularity, the array traversal returns the
execution error as soon as the array holds any non-null element, provided
the non-null elements are timestamps on which the conversion is defined. -/
theorem dtsMapArray_unsupported (g : String)
    (hg : g ∉ ["second", "minute", "hour", "day", "week", "month", "year"])
    (vals : List (Option Int))
    (hvalid : ∀ x ∈ vals, ∀ v : Int, x = some v → validTs v)
    (hnn : ∃ v : Int, some v ∈ vals) :
    dtsMapArray g vals = some (Except.error (DataFusionError.Execution
      ("Unsupported date_trunc granularity: " ++ g))) := by
  induction vals with
  | nil =>
    obtain ⟨v, hv⟩ := hnn
    simp at hv
  | cons x rest ih =>
    cases x with
    | none =>
      have hnn2 : ∃ v : Int, some v ∈ rest := by
        obtain ⟨v, hv⟩ := hnn
        refine ⟨v, ?_⟩
        rcases List.mem_cons.mp hv with h | h
        · exact absurd h (by simp)
        · exact h
      have ih2 := ih (fun x hx v hv => hvalid x (by simp [hx]) v hv) hnn2
      simp only [dtsMapArray, ih2]
    | some v =>
      have hv := hvalid (some v) (by simp) v rfl
      simp only [dtsMapArray, dts_unsupported g hg v hv]

/-- The unsupported-granularity message never coincides with the
granularity shape error. -/
theorem unsupported_msg_ne_shape (s : String) :
    "Unsupported date_trunc granularity: " ++ s ≠
    "Granularity of `date_trunc` must be non-null scalar Utf8" := by
  intro h
  have hd := congrArg String.data h
  rw [String.data_append] at hd
  have h1 := congrArg List.head? hd
  simp at h1

/-- The unsupported-granularity message never coincides with the trailing
shape error. -/
theorem unsupported_msg_ne_array_shape (s : String) :
    "Unsupported date_trunc granularity: " ++ s ≠
    "array of `date_trunc` must be non-null scalar Utf8" := by
  intro h
  have hd := congrArg String.data h
  rw [String.data_append] at hd
  have h1 := congrArg List.head? hd
  simp at h1

/-- On success the elementwise string traversal preserves null
positions. -/
theorem mapStringOp_nulls (op : String → Except DataFusionError Int)
    (vals : List (Option String)) (out : List (Option Int))
    (h : mapStringOp op vals = Except.ok out) :
    ∀ i, vals.get? i = some none → out.get? i = some none := by
  induction vals generalizing out with
  | nil =>
    intro i hi
    simp at hi
  | cons x rest ih =>
    cases x with
    | none =>
      simp only [mapStringOp] at h
      cases hr : mapStringOp op rest with
      | error e => rw [hr] at h; exact Except.noConfusion h
      | ok r =>
        rw [hr] at h
        have hout : out = none :: r := (Except.ok.inj h).symm
        subst hout
        intro i hi
        cases i with
        | zero => rfl
        | succ j => exact ih r hr j hi
    | some sv =>
      simp only [mapStringOp] at h
      cases hx : op sv with
      | error e => rw [hx] at h; exact Except.noConfusion h
      | ok v =>
        rw [hx] at h
        cases hr : mapStringOp op rest with
        | error e => rw [hr] at h; exact Except.noConfusion h
        | ok r =>
          rw [hr] at h
          have hout : out = some v :: r := (Except.ok.inj h).symm
          subst hout
          intro i hi
          cases i with
          | zero => exact absurd (Option.some.inj hi) (by simp)
          | succ j => exact ih r hr j hi

/-- An all-null text array traverses to itself for every operation: the
operation is never invoked. -/
theorem mapStringOp_all_null (vals : List (Option String))
    (h : ∀ x ∈ vals, x = none) (op : String → Except DataFusionError Int) :
    mapStringOp op vals = Except.ok (vals.map fun _ => none) := by
  induction vals with
  | nil => rfl
  | cons x rest ih =>
    have hx : x = none := h x (by simp)
    subst hx
    simp only [mapStringOp, ih (fun y hy => h y (by simp [hy])), List.map]

/-- The array path of `handle` preserves null positions on success. -/
theorem handle_array_nulls (parse : String → Except DataFusionError Int)
    (name : String) (dt : DataType) (large : Bool)
    (vals : List (Option String)) (out : List (Option Int))
    (h : handle [ColumnarValue.Array (ArrayRef.utf8 ⟨large, vals⟩)] parse name dt =
      some (Except.ok (ColumnarValue.Array (ArrayRef.primI64 ⟨dt, out⟩)))) :
    ∀ i, vals.get? i = some none → out.get? i = some none := by
  cases large <;>
    simp only [handle, ArrayRef.dataType, unary_string_to_primitive_function,
      Bool.false_eq_true, if_false, if_true, List.length_cons,
      List.length_nil] at h <;>
    . norm_num at h
      cases hm : mapStringOp parse vals with
      | error e => rw [hm] at h; simp at h
      | ok r =>
        rw [hm] at h
        simp only [Option.some.injEq] at h
        have : r = out := by
          have h2 := h
          injection h2 with h3
          injection h3 with h4
          injection h4 with h5
          rw [PrimI64Data.mk.injEq] at h5
          exact h5.2
        exact this ▸ mapStringOp_nulls parse vals r hm

/-! ### Claim theorems -/

/-- Claim C1: for every nanosecond timestamp on which the conversion is
defined, `date_trunc` with granularity "week" first zeroes nanoseconds,
seconds, minutes and hours — producing exactly the "day" truncation — and
then subtracts one whole day per Monday-anchored weekday index of that day
(Monday subtracts 0, Sunday 6), landing on 00:00:00 of the Monday of the
week (weekday index 0, all time fields zero); in particular the Tuesday
2020-09-08T13:42:29.190855Z truncates to Monday 2020-09-07T00:00:00Z. -/
theorem c1_week_truncation :
    (∀ t : Int, validTs t →
      date_trunc_single "day" t =
        some (Except.ok (86400000000000 * (t / 1000000000 / 86400))) ∧
      date_trunc_single "week" t =
        some (Except.ok (86400000000000 * (t / 1000000000 / 86400) -
          86400000000000 * ((t / 1000000000 / 86400 + 3) % 7))) ∧
      0 ≤ (t / 1000000000 / 86400 + 3) % 7 ∧
      (t / 1000000000 / 86400 + 3) % 7 ≤ 6 ∧
      (∃ dt : NaiveDateTime,
        timestamp_ns_to_datetime (86400000000000 * (t / 1000000000 / 86400) -
          86400000000000 * ((t / 1000000000 / 86400 + 3) % 7)) = some dt ∧
        dt.weekdayNumber = 0 ∧ dt.hour = 0 ∧ dt.minute = 0 ∧ dt.second = 0 ∧
        dt.nano = 0)) ∧
    date_trunc_single "week" 1599572549190855000 =
      some (Except.ok 1599436800000000000) := by
  constructor
  · intro t h
    refine ⟨?_, ?_, by omega, by omega, ?_⟩
    · rw [dts_day t h, show 1000000000 * (t / 1000000000 - t / 1000000000 % 86400) =
        86400000000000 * (t / 1000000000 / 86400) from by omega]
    · rw [dts_week t h, show 86400000000000 * (t / 1000000000 / 86400 -
        (t / 1000000000 / 86400 + 3) % 7) =
        86400000000000 * (t / 1000000000 / 86400) -
          86400000000000 * ((t / 1000000000 / 86400 + 3) % 7) from by omega]
    · refine ⟨_, tns_of_valid _ (Or.inr (by omega)), ?_, ?_, ?_, ?_, ?_⟩ <;>
        simp only [mkDateTimeOfSecs, NaiveDateTime.weekdayNumber] <;> omega
  · decide

/-- Witness for C1 at the concrete Tuesday of the claim. -/
theorem c1_week_truncation_witness :
    date_trunc_single "week" 1599572549190855000 =
      some (Except.ok (86400000000000 * (1599572549190855000 / 1000000000 / 86400) -
        86400000000000 * ((1599572549190855000 / 1000000000 / 86400 + 3) % 7))) :=
  ((c1_week_truncation.1 1599572549190855000 (Or.inl (by norm_num))).2).1

/-- Claim C9: for every fixed instant bound by `make_now`, the returned
function, applied to any argument list whatsoever, returns `Ok` of a
scalar nanosecond timestamp equal to that instant with timezone label
"UTC"; two invocations return identical values. -/
theorem c9_make_now (now_ts : Int) (args args2 : List ColumnarValue) :
    make_now now_ts args = Except.ok (ColumnarValue.Scalar
      (ScalarValue.TimestampNanosecond (some now_ts) (some "UTC"))) ∧
    make_now now_ts args = make_now now_ts args2 :=
  ⟨rfl, rfl⟩

/-- Claim C10: with a well-formed granularity scalar, every array argument
enters the array arm: any concrete representation other than a 64-bit
primitive array panics (`none`, no returned failure); the trailing
shape-error branch is never produced for an array argument, is produced
by every non-`TimestampNanosecond` scalar, and is never produced by a
`TimestampNanosecond` scalar. -/
theorem c10_array_arm_panics :
    (∀ (g : String) (a : ArrayRef), (∀ p : PrimI64Data, a ≠ ArrayRef.primI64 p) →
      date_trunc [ColumnarValue.Scalar (ScalarValue.Utf8 (some g)),
        ColumnarValue.Array a] = none) ∧
    (∀ (g : String) (a : ArrayRef),
      date_trunc [ColumnarValue.Scalar (ScalarValue.Utf8 (some g)),
        ColumnarValue.Array a] ≠
        some (Except.error (DataFusionError.Execution
          "array of `date_trunc` must be non-null scalar Utf8"))) ∧
    (∀ (g : String) (s : ScalarValue),
      (∀ v tz, s ≠ ScalarValue.TimestampNanosecond v tz) →
      date_trunc [ColumnarValue.Scalar (ScalarValue.Utf8 (some g)),
        ColumnarValue.Scalar s] =
        some (Except.error (DataFusionError.Execution
          "array of `date_trunc` must be non-null scalar Utf8"))) ∧
    (∀ (g : String) (v : Option Int) (tz : Option String),
      date_trunc [ColumnarValue.Scalar (ScalarValue.Utf8 (some g)),
        ColumnarValue.Scalar (ScalarValue.TimestampNanosecond v tz)] ≠
        some (Except.error (DataFusionError.Execution
          "array of `date_trunc` must be non-null scalar Utf8"))) := by
  refine ⟨?_, ?_, ?_, ?_⟩
  · intro g a ha
    cases a with
    | utf8 u => rfl
    | primI64 p => exact absurd rfl (ha p)
    | primI32 p => rfl
  · intro g a
    cases a with
    | utf8 u => simp [date_trunc]
    | primI32 p => simp [date_trunc]
    | primI64 p =>
      simp only [date_trunc]
      cases hr : dtsMapArray g p.values with
      | none => simp
      | some r =>
        cases r with
        | error e =>
          have he := dtsMapArray_error_msg g p.values e hr
          subst he
          intro hcontra
          injection hcontra with h1
          injection h1 with h2
          injection h2 with h3
          exact unsupported_msg_ne_array_shape g h3
        | ok out => simp
  · intro g s hs
    cases s with
    | Utf8 v => rfl
    | LargeUtf8 v => rfl
    | Int32 v => rfl
    | Int64 v => rfl
    | TimestampSecond v tz => rfl
    | TimestampMillisecond v tz => rfl
    | TimestampMicrosecond v tz => rfl
    | TimestampNanosecond v tz => exact absurd rfl (hs v tz)
  · intro g v tz
    cases v with
    | none => simp [date_trunc]
    | some x =>
      simp only [date_trunc]
      cases hr : date_trunc_single g x with
      | none => simp
      | some r =>
        cases r with
        | error e =>
          have he := dts_error_msg g x e hr
          subst he
          intro hcontra
          injection hcontra with h1
          injection h1 with h2
          injection h2 with h3
          exact unsupported_msg_ne_array_shape g h3
        | ok out => simp

/-- Witness for C10: a text array panics; an `Int64` scalar hits the
trailing shape error. -/
theorem c10_array_arm_panics_witness :
    date_trunc [ColumnarValue.Scalar (ScalarValue.Utf8 (some "week")),
      ColumnarValue.Array (ArrayRef.utf8 ⟨false, [some "x"]⟩)] = none ∧
    date_trunc [ColumnarValue.Scalar (ScalarValue.Utf8 (some "week")),
      ColumnarValue.Scalar (ScalarValue.Int64 (some 1))] =
      some (Except.error (DataFusionError.Execution
        "array of `date_trunc` must be non-null scalar Utf8")) :=
  ⟨c10_array_arm_panics.1 "week" _ (fun p h => ArrayRef.noConfusion h),
   c10_array_arm_panics.2.2.1 "week" _ (fun v tz h => ScalarValue.noConfusion h)⟩

/-- Claim C3: whenever the external parser succeeds with nanosecond value
`n`, `to_timestamp` returns `n` at nanosecond unit, `to_timestamp_millis`
returns `n / 1_000_000`, `to_timestamp_micros` returns `n / 1_000` and
`to_timestamp_seconds` returns `n / 1_000_000_000`, all with Rust's
truncating integer division and each tagged with the matching output time
unit. -/
theorem c3_divisor_consistency (parse : String → Except DataFusionError Int)
    (s : String) (n : Int) (h : parse s = Except.ok n) :
    to_timestamp parse [ColumnarValue.Scalar (ScalarValue.Utf8 (some s))] =
      some (Except.ok (ColumnarValue.Scalar
        (ScalarValue.TimestampNanosecond (some n) none))) ∧
    to_timestamp_millis parse [ColumnarValue.Scalar (ScalarValue.Utf8 (some s))] =
      some (Except.ok (ColumnarValue.Scalar
        (ScalarValue.TimestampMillisecond (some (Int.tdiv n 1000000)) none))) ∧
    to_timestamp_micros parse [ColumnarValue.Scalar (ScalarValue.Utf8 (some s))] =
      some (Except.ok (ColumnarValue.Scalar
        (ScalarValue.TimestampMicrosecond (some (Int.tdiv n 1000)) none))) ∧
    to_timestamp_seconds parse [ColumnarValue.Scalar (ScalarValue.Utf8 (some s))] =
      some (Except.ok (ColumnarValue.Scalar
        (ScalarValue.TimestampSecond (some (Int.tdiv n 1000000000)) none))) := by
  refine ⟨?_, ?_, ?_, ?_⟩ <;>
    simp [to_timestamp, to_timestamp_millis, to_timestamp_micros,
      to_timestamp_seconds, handle, h, Except.map, primitiveScalarTryInto]

/-- Witness for C3 with a concrete parser and input. -/
theorem c3_divisor_consistency_witness :
    to_timestamp (fun _ => Except.ok 1599572549190855000)
      [ColumnarValue.Scalar (ScalarValue.Utf8 (some "2020-09-08T13:42:29.190855Z"))] =
      some (Except.ok (ColumnarValue.Scalar
        (ScalarValue.TimestampNanosecond (some 1599572549190855000) none))) ∧
    to_timestamp_millis (fun _ => Except.ok 1599572549190855000)
      [ColumnarValue.Scalar (ScalarValue.Utf8 (some "2020-09-08T13:42:29.190855Z"))] =
      some (Except.ok (ColumnarValue.Scalar
        (ScalarValue.TimestampMillisecond (some (Int.tdiv 1599572549190855000 1000000))
          none))) ∧
    to_timestamp_micros (fun _ => Except.ok 1599572549190855000)
      [ColumnarValue.Scalar (ScalarValue.Utf8 (some "2020-09-08T13:42:29.190855Z"))] =
      some (Except.ok (ColumnarValue.Scalar
        (ScalarValue.TimestampMicrosecond (some (Int.tdiv 1599572549190855000 1000))
          none))) ∧
    to_timestamp_seconds (fun _ => Except.ok 1599572549190855000)
      [ColumnarValue.Scalar (ScalarValue.Utf8 (some "2020-09-08T13:42:29.190855Z"))] =
      some (Except.ok (ColumnarValue.Scalar
        (ScalarValue.TimestampSecond (some (Int.tdiv 1599572549190855000 1000000000))
          none))) :=
  c3_divisor_consistency (fun _ => Except.ok 1599572549190855000)
    "2020-09-08T13:42:29.190855Z" 1599572549190855000 rfl

/-- Claim C8: a `to_timestamp`-family call whose argument is neither a text
array (either offset width) nor a text scalar fails with an
unsupported-type error, and the wording is the identical pattern
`"Unsupported data type {type} for function {name}"` in both the array
branch and the scalar branch; in particular an `Int64` array is rejected
with the error naming `Int64` and the function. -/
theorem c8_unsupported_type :
    (∀ (parse : String → Except DataFusionError Int) (name : String)
        (dt : DataType) (p : PrimI64Data),
      p.dtype ≠ DataType.Utf8 → p.dtype ≠ DataType.LargeUtf8 →
      handle [ColumnarValue.Array (ArrayRef.primI64 p)] parse name dt =
        some (Except.error (DataFusionError.Internal
          ("Unsupported data type " ++ p.dtype.debugFmt ++ " for function " ++
            name)))) ∧
    (∀ (parse : String → Except DataFusionError Int) (name : String)
        (dt : DataType) (p : PrimI32Data),
      p.dtype ≠ DataType.Utf8 → p.dtype ≠ DataType.LargeUtf8 →
      handle [ColumnarValue.Array (ArrayRef.primI32 p)] parse name dt =
        some (Except.error (DataFusionError.Internal
          ("Unsupported data type " ++ p.dtype.debugFmt ++ " for function " ++
            name)))) ∧
    (∀ (parse : String → Except DataFusionError Int) (name : String)
        (dt : DataType) (s : ScalarValue),
      (∀ v, s ≠ ScalarValue.Utf8 v) → (∀ v, s ≠ ScalarValue.LargeUtf8 v) →
      handle [ColumnarValue.Scalar s] parse name dt =
        some (Except.error (DataFusionError.Internal
          ("Unsupported data type " ++ s.debugFmt ++ " for function " ++ name)))) ∧
    (∀ parse : String → Except DataFusionError Int,
      to_timestamp parse
          [ColumnarValue.Array (ArrayRef.primI64 ⟨DataType.Int64, [some 1]⟩)] =
        some (Except.error (DataFusionError.Internal
          "Unsupported data type Int64 for function to_timestamp")) ∧
      to_timestamp_millis parse
          [ColumnarValue.Array (ArrayRef.primI64 ⟨DataType.Int64, [some 1]⟩)] =
        some (Except.error (DataFusionError.Internal
          "Unsupported data type Int64 for function to_timestamp_millis")) ∧
      to_timestamp_micros parse
          [ColumnarValue.Array (ArrayRef.primI64 ⟨DataType.Int64, [some 1]⟩)] =
        some (Except.error (DataFusionError.Internal
          "Unsupported data type Int64 for function to_timestamp_micros")) ∧
      to_timestamp_seconds parse
          [ColumnarValue.Array (ArrayRef.primI64 ⟨DataType.Int64, [some 1]⟩)] =
        some (Except.error (DataFusionError.Internal
          "Unsupported data type Int64 for function to_timestamp_seconds"))) := by
  refine ⟨?_, ?_, ?_, ?_⟩
  · intro parse name dt p h1 h2
    obtain ⟨pdt, pvals⟩ := p
    cases pdt <;> simp_all [handle, ArrayRef.dataType]
  · intro parse name dt p h1 h2
    obtain ⟨pdt, pvals⟩ := p
    cases pdt <;> simp_all [handle, ArrayRef.dataType]
  · intro parse name dt s h1 h2
    cases s with
    | Utf8 v => exact absurd rfl (h1 v)
    | LargeUtf8 v => exact absurd rfl (h2 v)
    | Int32 v => rfl
    | Int64 v => rfl
    | TimestampSecond v tz => rfl
    | TimestampMillisecond v tz => rfl
    | TimestampMicrosecond v tz => rfl
    | TimestampNanosecond v tz => rfl
  · intro parse
    exact ⟨rfl, rfl, rfl, rfl⟩

/-- Witness for C8 at concrete inputs. -/
theorem c8_unsupported_type_witness :
    handle [ColumnarValue.Array (ArrayRef.primI64 ⟨DataType.Int64, [some 1]⟩)]
        (fun _ => Except.ok 0) "to_timestamp"
        (DataType.Timestamp TimeUnit.Nanosecond none) =
      some (Except.error (DataFusionError.Internal
        "Unsupported data type Int64 for function to_timestamp")) ∧
    handle [ColumnarValue.Scalar (ScalarValue.Int64 (some 1))]
        (fun _ => Except.ok 0) "to_timestamp"
        (DataType.Timestamp TimeUnit.Nanosecond none) =
      some (Except.error (DataFusionError.Internal
        "Unsupported data type Int64(Some(1)) for function to_timestamp")) :=
  ⟨c8_unsupported_type.1 (fun _ => Except.ok 0) "to_timestamp" _ _
      (by decide) (by decide),
   c8_unsupported_type.2.2.1 (fun _ => Except.ok 0) "to_timestamp" _ _
      (fun v h => ScalarValue.noConfusion h) (fun v h => ScalarValue.noConfusion h)⟩

/-- Claim C6 counterexample: with an unsupported granularity ("century") and
a null scalar timestamp, `date_trunc` returns `Ok` null — not the
execution error the claim requires for every timestamp argument. -/
theorem c6_counterexample :
    date_trunc [ColumnarValue.Scalar (ScalarValue.Utf8 (some "century")),
      ColumnarValue.Scalar (ScalarValue.TimestampNanosecond none none)] =
      some (Except.ok (ColumnarValue.Scalar
        (ScalarValue.TimestampNanosecond none none))) ∧
    date_trunc [ColumnarValue.Scalar (ScalarValue.Utf8 (some "century")),
      ColumnarValue.Scalar (ScalarValue.TimestampNanosecond none none)] ≠
      some (Except.error (DataFusionError.Execution
        "Unsupported date_trunc granularity: century")) :=
  ⟨rfl, by decide⟩

/-- Claim C6 (amended): with an unsupported granularity name, `date_trunc`
returns the execution error `"Unsupported date_trunc granularity: {g}"`
for every timestamp argument holding at least one non-null value, provided
its non-null values are timestamps on which the conversion is defined;
null scalars and null elements pass through as null without invoking the
truncation, so an entirely-null timestamp argument yields `Ok` instead of
the error. -/
theorem c6_unsupported_granularity (g : String)
    (hg : g ∉ ["second", "minute", "hour", "day", "week", "month", "year"])
    (tz : Option String) :
    (∀ v : Int, validTs v →
      date_trunc [ColumnarValue.Scalar (ScalarValue.Utf8 (some g)),
        ColumnarValue.Scalar (ScalarValue.TimestampNanosecond (some v) tz)] =
        some (Except.error (DataFusionError.Execution
          ("Unsupported date_trunc granularity: " ++ g)))) ∧
    date_trunc [ColumnarValue.Scalar (ScalarValue.Utf8 (some g)),
      ColumnarValue.Scalar (ScalarValue.TimestampNanosecond none tz)] =
      some (Except.ok (ColumnarValue.Scalar
        (ScalarValue.TimestampNanosecond none tz))) ∧
    (∀ (dt0 : DataType) (vals : List (Option Int)),
      (∀ x ∈ vals, ∀ v : Int, x = some v → validTs v) →
      (∃ v : Int, some v ∈ vals) →
      date_trunc [ColumnarValue.Scalar (ScalarValue.Utf8 (some g)),
        ColumnarValue.Array (ArrayRef.primI64 ⟨dt0, vals⟩)] =
        some (Except.error (DataFusionError.Execution
          ("Unsupported date_trunc granularity: " ++ g)))) ∧
    (∀ (dt0 : DataType) (vals : List (Option Int)), (∀ x ∈ vals, x = none) →
      date_trunc [ColumnarValue.Scalar (ScalarValue.Utf8 (some g)),
        ColumnarValue.Array (ArrayRef.primI64 ⟨dt0, vals⟩)] =
        some (Except.ok (ColumnarValue.Array (ArrayRef.primI64
          ⟨DataType.Timestamp TimeUnit.Nanosecond none, vals⟩)))) := by
  refine ⟨?_, rfl, ?_, ?_⟩
  · intro v hv
    simp only [date_trunc, dts_unsupported g hg v hv]
  · intro dt0 vals hvalid hnn
    simp only [date_trunc, dtsMapArray_unsupported g hg vals hvalid hnn]
  · intro dt0 vals hnull
    simp only [date_trunc, dtsMapArray_all_null g vals hnull]

/-- Witness for the amended C6 at concrete inputs. -/
theorem c6_unsupported_granularity_witness :
    date_trunc [ColumnarValue.Scalar (ScalarValue.Utf8 (some "century")),
      ColumnarValue.Scalar (ScalarValue.TimestampNanosecond (some 0) none)] =
      some (Except.error (DataFusionError.Execution
        "Unsupported date_trunc granularity: century")) ∧
    date_trunc [ColumnarValue.Scalar (ScalarValue.Utf8 (some "century")),
      ColumnarValue.Scalar (ScalarValue.TimestampNanosecond none none)] =
      some (Except.ok (ColumnarValue.Scalar
        (ScalarValue.TimestampNanosecond none none))) :=
  ⟨(c6_unsupported_granularity "century" (by decide) none).1 0 (Or.inl (by norm_num)),
   (c6_unsupported_granularity "century" (by decide) none).2.1⟩

/-- Claim C7 counterexample: a non-null scalar text granularity in the wide
(`LargeUtf8`) encoding does trigger the request-shape error, refuting the
claim that every non-null scalar text granularity (either encoding)
passes the shape check. -/
theorem c7_counterexample :
    date_trunc [ColumnarValue.Scalar (ScalarValue.LargeUtf8 (some "second")),
      ColumnarValue.Scalar (ScalarValue.TimestampNanosecond (some 0) none)] =
      some (Except.error (DataFusionError.Execution
        "Granularity of `date_trunc` must be non-null scalar Utf8")) := rfl

/-- Claim C7 (amended): `date_trunc` returns its request-shape error exactly
when the granularity argument is not a non-null scalar `Utf8`
(narrow-encoding) text value; in particular a non-null `LargeUtf8` scalar
also triggers it. -/
theorem c7_shape_error_iff (g arrv : ColumnarValue) :
    date_trunc [g, arrv] = some (Except.error (DataFusionError.Execution
      "Granularity of `date_trunc` must be non-null scalar Utf8")) ↔
    ∀ v : String, g ≠ ColumnarValue.Scalar (ScalarValue.Utf8 (some v)) := by
  constructor
  · intro h v hv
    subst hv
    cases arrv with
    | Array a =>
      cases a with
      | utf8 u => exact Option.noConfusion h
      | primI32 p => exact Option.noConfusion h
      | primI64 p =>
        simp only [date_trunc] at h
        cases hr : dtsMapArray v p.values with
        | none => rw [hr] at h; exact Option.noConfusion h
        | some r =>
          rw [hr] at h
          cases r with
          | error e =>
            have he := dtsMapArray_error_msg v p.values e hr
            subst he
            injection h with h1
            injection h1 with h2
            injection h2 with h3
            exact unsupported_msg_ne_shape v h3
          | ok out => exact Except.noConfusion (Option.some.inj h)
    | Scalar s =>
      cases s with
      | TimestampNanosecond vv tz =>
        cases vv with
        | none =>
          simp only [date_trunc] at h
          exact Except.noConfusion (Option.some.inj h)
        | some x =>
          simp only [date_trunc] at h
          cases hx : date_trunc_single v x with
          | none => rw [hx] at h; exact Option.noConfusion h
          | some r =>
            rw [hx] at h
            cases r with
            | error e =>
              have he := dts_error_msg v x e hx
              subst he
              injection h with h1
              injection h1 with h2
              injection h2 with h3
              exact unsupported_msg_ne_shape v h3
            | ok out => exact Except.noConfusion (Option.some.inj h)
      | Utf8 w =>
        simp only [date_trunc] at h
        injection h with h1
        injection h1 with h2
        injection h2 with h3
        exact absurd h3 (by decide)
      | LargeUtf8 w =>
        simp only [date_trunc] at h
        injection h with h1
        injection h1 with h2
        injection h2 with h3
        exact absurd h3 (by decide)
      | Int32 w =>
        simp only [date_trunc] at h
        injection h with h1
        injection h1 with h2
        injection h2 with h3
        exact absurd h3 (by decide)
      | Int64 w =>
        simp only [date_trunc] at h
        injection h with h1
        injection h1 with h2
        injection h2 with h3
        exact absurd h3 (by decide)
      | TimestampSecond w tz =>
        simp only [date_trunc] at h
        injection h with h1
        injection h1 with h2
        injection h2 with h3
        exact absurd h3 (by decide)
      | TimestampMillisecond w tz =>
        simp only [date_trunc] at h
        injection h with h1
        injection h1 with h2
        injection h2 with h3
        exact absurd h3 (by decide)
      | TimestampMicrosecond w tz =>
        simp only [date_trunc] at h
        injection h with h1
        injection h1 with h2
        injection h2 with h3
        exact absurd h3 (by decide)
  · intro hv
    cases g with
    | Array a => rfl
    | Scalar s =>
      cases s with
      | Utf8 v =>
        cases v with
        | none => rfl
        | some v0 => exact absurd rfl (hv v0)
      | LargeUtf8 v => rfl
      | Int32 v => rfl
      | Int64 v => rfl
      | TimestampSecond v tz => rfl
      | TimestampMillisecond v tz => rfl
      | TimestampMicrosecond v tz => rfl
      | TimestampNanosecond v tz => rfl

/-- Witness for the amended C7. -/
theorem c7_shape_error_iff_witness :
    date_trunc [ColumnarValue.Scalar (ScalarValue.LargeUtf8 (some "second")),
      ColumnarValue.Scalar (ScalarValue.TimestampNanosecond (some 0) none)] =
      some (Except.error (DataFusionError.Execution
        "Granularity of `date_trunc` must be non-null scalar Utf8")) :=
  (c7_shape_error_iff _ _).mpr (fun v h => by simp at h)

/-- Claim C2: null propagation.  For the `to_timestamp` family a null scalar
(either encoding) yields a null scalar of the requested output type for
every parser (so the operation is never invoked on it), and on the array
path null elements map to null outputs at the same positions — an
entirely-null array is mapped, for every parser, to the all-null output.
For `date_trunc` a null scalar passes through (any granularity, timezone
preserved) and successful array calls preserve null positions.  For
`date_part` a null timestamp scalar yields a null `Int32` scalar for both
supported fields, and array extraction under both fields — `hour` and
`year` — maps null elements to null outputs at the same positions. -/
theorem c2_null_propagation :
    (∀ parse : String → Except DataFusionError Int,
      to_timestamp parse [ColumnarValue.Scalar (ScalarValue.Utf8 none)] =
        some (Except.ok (ColumnarValue.Scalar
          (ScalarValue.TimestampNanosecond none none))) ∧
      to_timestamp parse [ColumnarValue.Scalar (ScalarValue.LargeUtf8 none)] =
        some (Except.ok (ColumnarValue.Scalar
          (ScalarValue.TimestampNanosecond none none))) ∧
      to_timestamp_millis parse [ColumnarValue.Scalar (ScalarValue.Utf8 none)] =
        some (Except.ok (ColumnarValue.Scalar
          (ScalarValue.TimestampMillisecond none none))) ∧
      to_timestamp_millis parse [ColumnarValue.Scalar (ScalarValue.LargeUtf8 none)] =
        some (Except.ok (ColumnarValue.Scalar
          (ScalarValue.TimestampMillisecond none none))) ∧
      to_timestamp_micros parse [ColumnarValue.Scalar (ScalarValue.Utf8 none)] =
        some (Except.ok (ColumnarValue.Scalar
          (ScalarValue.TimestampMicrosecond none none))) ∧
      to_timestamp_micros parse [ColumnarValue.Scalar (ScalarValue.LargeUtf8 none)] =
        some (Except.ok (ColumnarValue.Scalar
          (ScalarValue.TimestampMicrosecond none none))) ∧
      to_timestamp_seconds parse [ColumnarValue.Scalar (ScalarValue.Utf8 none)] =
        some (Except.ok (ColumnarValue.Scalar
          (ScalarValue.TimestampSecond none none))) ∧
      to_timestamp_seconds parse [ColumnarValue.Scalar (ScalarValue.LargeUtf8 none)] =
        some (Except.ok (ColumnarValue.Scalar
          (ScalarValue.TimestampSecond none none)))) ∧
    (∀ (parse : String → Except DataFusionError Int) (name : String)
        (dt : DataType) (large : Bool) (vals : List (Option String))
        (out : List (Option Int)),
      handle [ColumnarValue.Array (ArrayRef.utf8 ⟨large, vals⟩)] parse name dt =
        some (Except.ok (ColumnarValue.Array (ArrayRef.primI64 ⟨dt, out⟩))) →
      ∀ i, vals.get? i = some none → out.get? i = some none) ∧
    (∀ (parse : String → Except DataFusionError Int) (name : String)
        (dt : DataType) (large : Bool) (vals : List (Option String)),
      (∀ x ∈ vals, x = none) →
      handle [ColumnarValue.Array (ArrayRef.utf8 ⟨large, vals⟩)] parse name dt =
        some (Except.ok (ColumnarValue.Array (ArrayRef.primI64
          ⟨dt, vals.map fun _ => none⟩)))) ∧
    (∀ (g : String) (tz : Option String),
      date_trunc [ColumnarValue.Scalar (ScalarValue.Utf8 (some g)),
        ColumnarValue.Scalar (ScalarValue.TimestampNanosecond none tz)] =
        some (Except.ok (ColumnarValue.Scalar
          (ScalarValue.TimestampNanosecond none tz)))) ∧
    (∀ (g : String) (p : PrimI64Data) (out : List (Option Int)),
      date_trunc [ColumnarValue.Scalar (ScalarValue.Utf8 (some g)),
        ColumnarValue.Array (ArrayRef.primI64 p)] =
        some (Except.ok (ColumnarValue.Array (ArrayRef.primI64
          ⟨DataType.Timestamp TimeUnit.Nanosecond none, out⟩))) →
      ∀ i, p.values.get? i = some none → out.get? i = some none) ∧
    (∀ tz : Option String,
      date_part [ColumnarValue.Scalar (ScalarValue.Utf8 (some "hour")),
        ColumnarValue.Scalar (ScalarValue.TimestampNanosecond none tz)] =
        some (Except.ok (ColumnarValue.Scalar (ScalarValue.Int32 none))) ∧
      date_part [ColumnarValue.Scalar (ScalarValue.Utf8 (some "year")),
        ColumnarValue.Scalar (ScalarValue.TimestampNanosecond none tz)] =
        some (Except.ok (ColumnarValue.Scalar (ScalarValue.Int32 none)))) ∧
    (∀ (u : TimeUnit) (tz : Option String) (vals : List (Option Int)),
      date_part [ColumnarValue.Scalar (ScalarValue.Utf8 (some "hour")),
        ColumnarValue.Array (ArrayRef.primI64 ⟨DataType.Timestamp u tz, vals⟩)] =
        some (Except.ok (ColumnarValue.Array (ArrayRef.primI32 ⟨DataType.Int32,
          vals.map (Option.map fun v => v / u.toSecondsDiv % 86400 / 3600)⟩))) ∧
      (∀ i, vals.get? i = some none →
        (vals.map (Option.map fun v =>
          v / u.toSecondsDiv % 86400 / 3600)).get? i = some none) ∧
      date_part [ColumnarValue.Scalar (ScalarValue.Utf8 (some "year")),
        ColumnarValue.Array (ArrayRef.primI64 ⟨DataType.Timestamp u tz, vals⟩)] =
        some (Except.ok (ColumnarValue.Array (ArrayRef.primI32 ⟨DataType.Int32,
          vals.map (Option.map fun v =>
            (civilFromDays (v / u.toSecondsDiv / 86400)).year)⟩))) ∧
      ∀ i, vals.get? i = some none →
        (vals.map (Option.map fun v =>
          (civilFromDays (v / u.toSecondsDiv / 86400)).year)).get? i =
          some none) := by
  refine ⟨?_, ?_, ?_, ?_, ?_, ?_, ?_⟩
  · exact fun parse => ⟨rfl, rfl, rfl, rfl, rfl, rfl, rfl, rfl⟩
  · exact handle_array_nulls
  · intro parse name dt large vals hnull
    cases large <;>
      simp [handle, ArrayRef.dataType, unary_string_to_primitive_function,
        mapStringOp_all_null vals hnull parse]
  · exact fun g tz => rfl
  · intro g p out h i hi
    simp only [date_trunc] at h
    cases hr : dtsMapArray g p.values with
    | none => rw [hr] at h; exact Option.noConfusion h
    | some r =>
      rw [hr] at h
      cases r with
      | error e => exact Except.noConfusion (Option.some.inj h)
      | ok r2 =>
        have hout : r2 = out := by
          injection h with h1
          injection h1 with h2
          injection h2 with h3
          injection h3 with h4
          rw [PrimI64Data.mk.injEq] at h4
          exact h4.2
        exact hout ▸ dtsMapArray_ok_nulls g p.values r2 hr i hi
  · exact fun tz => ⟨rfl, rfl⟩
  · intro u tz vals
    refine ⟨rfl, ?_, rfl, ?_⟩ <;>
      · intro i hi
        rw [List.get?_eq_getElem?] at hi ⊢
        simp [List.getElem?_map, hi]

/-- Witness for C2 at concrete inputs. -/
theorem c2_null_propagation_witness :
    to_timestamp (fun _ => Except.ok 0)
      [ColumnarValue.Scalar (ScalarValue.Utf8 none)] =
      some (Except.ok (ColumnarValue.Scalar
        (ScalarValue.TimestampNanosecond none none))) ∧
    (ArrayRef.primI64 ⟨DataType.Timestamp TimeUnit.Nanosecond none,
      [none]⟩).dataType = DataType.Timestamp TimeUnit.Nanosecond none ∧
    date_trunc [ColumnarValue.Scalar (ScalarValue.Utf8 (some "week")),
      ColumnarValue.Scalar (ScalarValue.TimestampNanosecond none (some "UTC"))] =
      some (Except.ok (ColumnarValue.Scalar
        (ScalarValue.TimestampNanosecond none (some "UTC")))) :=
  ⟨(c2_null_propagation.1 (fun _ => Except.ok 0)).1, rfl,
   c2_null_propagation.2.2.2.1 "week" (some "UTC")⟩

end DatetimeExpressions
